import Mathlib

/-!
Shallow embedding of the KAM-Sentinel warning/threshold engine.

The definitions below translate, line by line, the Python sources:
  * `server.py`   — `_warnings` (the warning evaluator, lines 719-756),
                    `_validate` (input validation, lines 84-97),
                    `api_thresholds_post` (threshold update, lines 877-887),
                    the module-level rolling windows
                    `_sustained = {cpu: deque(maxlen=12), gpu: deque(maxlen=12)}`
                    and `_net_base = deque(maxlen=36)`.
  * `thresholds.py` — `DEFAULT_THRESHOLDS` and the merge loop of `load_thresholds`.

Modelling conventions:
  * Python numbers are modelled as `ℚ` (the evaluator only compares, adds and
    divides small sensor readings; exact rational arithmetic reflects those
    operations — no claim under study depends on binary floating-point rounding).
  * A Python value that may be `None` is modelled as `Option ℚ`.
  * Python code that can raise (comparing `None` with a number, `sum` over a
    list containing `None`, division by zero, a missing dict key) is modelled
    in `Except String`.
  * Python truthiness of a numeric sensor reading (`if ct:`) is the test
    `c ≠ 0` after unwrapping the option.
  * `str(x)` of a Python number is modelled by `pyStr`; it agrees with Python
    on integers (the only values appearing in concrete claims); `'%.0f'`
    formatting is modelled by `pyFmt0` using round-half-to-even as Python does.
-/

instance exceptDecEq {ε α : Type} [DecidableEq ε] [DecidableEq α] :
    DecidableEq (Except ε α) := fun
  | .error a, .error b =>
    if h : a = b then .isTrue (by rw [h])
    else .isFalse (by intro hh; cases hh; exact h rfl)
  | .error _, .ok _ => .isFalse (by intro h; cases h)
  | .ok _, .error _ => .isFalse (by intro h; cases h)
  | .ok a, .ok b =>
    if h : a = b then .isTrue (by rw [h])
    else .isFalse (by intro hh; cases hh; exact h rfl)

/-- `str(q)` for an integral rational agrees with Python `str` of the int. -/
def pyStr (q : ℚ) : String :=
  if q.den = 1 then toString q.num else toString q

/-- Round half to even, as Python `'%.0f' % x` formatting rounds. -/
def roundHalfEven (q : ℚ) : ℤ :=
  let f : ℤ := ⌊q⌋
  let r : ℚ := q - (f : ℚ)
  if r < 1/2 then f
  else if (1:ℚ)/2 < r then f + 1
  else if f % 2 = 0 then f else f + 1

/-- `f'{x:.0f}'` — Python fixed-point formatting with zero decimals. -/
def pyFmt0 (q : ℚ) : String := toString (roundHalfEven q)

/-- Does the first character list start the second? -/
def headMatch : List Char → List Char → Bool
  | [], _ => true
  | _ :: _, [] => false
  | a :: as, b :: bs => a == b && headMatch as bs

/-- Does the first character list occur contiguously inside the second? -/
def occursIn (v : List Char) : List Char → Bool
  | [] => headMatch v []
  | b :: bs => headMatch v (b :: bs) || occursIn v bs

/-- Substring occurrence test on strings. -/
def strOccurs (v m : String) : Bool := occursIn v.data m.data

/-- `deque(maxlen := cap)` append: add on the right, evict from the left
once the capacity is exceeded. -/
def pushCap (cap : Nat) (xs : List α) (x : α) : List α :=
  let ys := xs ++ [x]
  if cap < ys.length then ys.drop (ys.length - cap) else ys

/-- Python `sum` over a list of maybe-`None` numbers: raises `TypeError`
on the first `None`. -/
def sumOpt : List (Option ℚ) → Except String ℚ
  | [] => .ok 0
  | none :: _ => .error "TypeError"
  | some x :: rest => (sumOpt rest).map (fun s => x + s)

/-- Python `xs[-n:]` under the guarantee `n ≤ len(xs)` — note `xs[-0:]`
is the whole list. -/
def pySliceLast (n : Nat) (xs : List α) : List α :=
  if n = 0 then xs else xs.drop (xs.length - n)

-- ── Threshold profile (thresholds.py `DEFAULT_THRESHOLDS` shape) ─────────────

structure CpuTh where
  temp_warn : ℚ
  temp_crit : ℚ
  volt_min : ℚ
  volt_max : ℚ
  usage_warn : ℚ
  usage_crit : ℚ
  usage_sustain_sec : ℚ
deriving DecidableEq, Repr

structure GpuTh where
  temp_warn : ℚ
  temp_crit : ℚ
  usage_warn : ℚ
  usage_crit : ℚ
  usage_sustain_sec : ℚ
deriving DecidableEq, Repr

structure RamTh where
  usage_warn : ℚ
  usage_crit : ℚ
deriving DecidableEq, Repr

structure NetTh where
  spike_multiplier : ℚ
  baseline_samples : Nat
deriving DecidableEq, Repr

structure VoltTh where
  cpu_min : ℚ
  cpu_max : ℚ
deriving DecidableEq, Repr

structure Thresholds where
  cpu : CpuTh
  gpu : GpuTh
  ram : RamTh
  network : NetTh
  voltage : VoltTh
deriving DecidableEq, Repr

/-- `thresholds.py` lines 63-92: the generic fallback thresholds. -/
def DEFAULT_THRESHOLDS : Thresholds where
  cpu := { temp_warn := 75, temp_crit := 90, volt_min := 9/10, volt_max := 29/20
         , usage_warn := 85, usage_crit := 95, usage_sustain_sec := 30 }
  gpu := { temp_warn := 80, temp_crit := 95
         , usage_warn := 90, usage_crit := 98, usage_sustain_sec := 30 }
  ram := { usage_warn := 80, usage_crit := 92 }
  network := { spike_multiplier := 5, baseline_samples := 12 }
  voltage := { cpu_min := 9/10, cpu_max := 29/20 }

-- ── Sample, rolling state, warning record ────────────────────────────────────

/-- One metric sample as assembled by `_live_stats` and read by `_warnings`:
`cpu['usage']` is always present; the other numeric fields may be `None`.
`download_display` is the preformatted display string `net['download_display']`. -/
structure Sample where
  cpu_usage : ℚ
  cpu_temp : Option ℚ
  cpu_voltage : Option ℚ
  gpu_temp : Option ℚ
  gpu_usage : Option ℚ
  ram_usage_percent : Option ℚ
  net_download_kbps : Option ℚ
  download_display : String
deriving DecidableEq, Repr

/-- The module-level rolling windows of `server.py`:
`_sustained['cpu']`, `_sustained['gpu']` (deques of maxlen 12) and
`_net_base` (deque of maxlen 36, which can contain `None`, since
`_warnings` appends `net['download_kbps']` unconditionally). -/
structure WinState where
  cpuWin : List ℚ
  gpuWin : List ℚ
  netWin : List (Option ℚ)
deriving DecidableEq, Repr

def emptyState : WinState := ⟨[], [], []⟩

/-- One warning record, exactly the four keys built by `_warnings`. -/
structure Warning where
  id : String
  level : String
  component : String
  message : String
deriving DecidableEq, Repr

-- ── The evaluator `_warnings`, split by rule in source order ─────────────────

/-- server.py lines 725-727: CPU temperature rule (guarded by truthiness of `ct`). -/
def cpuTempW (t : Thresholds) (ct : Option ℚ) : List Warning :=
  match ct with
  | none => []
  | some c =>
    if c = 0 then []
    else if t.cpu.temp_crit ≤ c then
      [⟨"cpu_temp_crit", "critical", "CPU", "CPU temp critical: " ++ pyStr c ++ "°C"⟩]
    else if t.cpu.temp_warn ≤ c then
      [⟨"cpu_temp_warn", "warning", "CPU", "CPU temp elevated: " ++ pyStr c ++ "°C"⟩]
    else []

/-- server.py lines 728-730: GPU temperature rule (guarded by truthiness of `gt`). -/
def gpuTempW (t : Thresholds) (gt : Option ℚ) : List Warning :=
  match gt with
  | none => []
  | some g =>
    if g = 0 then []
    else if t.gpu.temp_crit ≤ g then
      [⟨"gpu_temp_crit", "critical", "GPU", "GPU temp critical: " ++ pyStr g ++ "°C"⟩]
    else if t.gpu.temp_warn ≤ g then
      [⟨"gpu_temp_warn", "warning", "GPU", "GPU temp elevated: " ++ pyStr g ++ "°C"⟩]
    else []

/-- server.py lines 731-733: CPU voltage rule (guarded by truthiness of `cv`). -/
def voltW (t : Thresholds) (cv : Option ℚ) : List Warning :=
  match cv with
  | none => []
  | some v =>
    if v = 0 then []
    else if t.voltage.cpu_max < v then
      [⟨"cpu_volt_high", "critical", "Voltage", "CPU voltage high: " ++ pyStr v ++ "V"⟩]
    else if v < t.voltage.cpu_min then
      [⟨"cpu_volt_low", "warning", "Voltage", "CPU voltage low: " ++ pyStr v ++ "V"⟩]
    else []

/-- server.py lines 734-735: RAM rule (`rp` compared unguarded). -/
def ramW (t : Thresholds) (rp : ℚ) : List Warning :=
  if t.ram.usage_crit ≤ rp then
    [⟨"ram_crit", "critical", "RAM", "RAM critical: " ++ pyStr rp ++ "%"⟩]
  else if t.ram.usage_warn ≤ rp then
    [⟨"ram_warn", "warning", "RAM", "RAM high: " ++ pyStr rp ++ "%"⟩]
  else []

/-- `sum(xs)/len(xs)` — the arithmetic mean used by the sustained rules. -/
def meanQ (l : List ℚ) : ℚ := l.sum / (l.length : ℚ)

/-- server.py line 737: `sn = max(1, t['cpu']['usage_sustain_sec']//5)` —
note both the CPU and the GPU sustained checks use this count. -/
def snOf (t : Thresholds) : ℚ := max 1 ((⌊t.cpu.usage_sustain_sec / 5⌋ : ℤ) : ℚ)

/-- The claim-side sample capacity `max(1, usage_sustain_sec // 5)` as a natural
number; agrees with `snOf` (see `snOf_eq_capOf`). -/
def capOf (t : Thresholds) : Nat := max 1 (Int.toNat ⌊t.cpu.usage_sustain_sec / 5⌋)

/-- server.py lines 742-745: CPU sustained-usage rule over the pushed window `cs`. -/
def cpuSusW (t : Thresholds) (cs : List ℚ) : List Warning :=
  if snOf t ≤ (cs.length : ℚ) then
    if t.cpu.usage_crit ≤ meanQ cs then
      [⟨"cpu_sc", "critical", "CPU", "CPU sustained " ++ pyFmt0 (meanQ cs) ++ "%"⟩]
    else if t.cpu.usage_warn ≤ meanQ cs then
      [⟨"cpu_sw", "warning", "CPU", "CPU sustained " ++ pyFmt0 (meanQ cs) ++ "%"⟩]
    else []
  else []

/-- server.py lines 746-749: GPU sustained-usage rule; `gs` is `None` when no
GPU usage was pushed this call, and the check `if gs and len(gs) >= sn`
also uses `sn`, i.e. the CPU sustain count. -/
def gpuSusW (t : Thresholds) (gs : Option (List ℚ)) : List Warning :=
  match gs with
  | none => []
  | some l =>
    if l.isEmpty then []
    else if snOf t ≤ (l.length : ℚ) then
      if t.gpu.usage_crit ≤ meanQ l then
        [⟨"gpu_sc", "critical", "GPU", "GPU sustained " ++ pyFmt0 (meanQ l) ++ "%"⟩]
      else if t.gpu.usage_warn ≤ meanQ l then
        [⟨"gpu_sw", "warning", "GPU", "GPU sustained " ++ pyFmt0 (meanQ l) ++ "%"⟩]
      else []
    else []

/-- server.py lines 750-755: network-spike rule, evaluated on the window after
the unconditional `_net_base.append(dn)`. `sum` raises on a `None` entry,
`/nb` raises for `nb = 0`, and `dn > ab * mult` raises when `dn` is `None`
(reached only when `ab > 10`, thanks to `and` short-circuiting). -/
def netW (t : Thresholds) (nw : List (Option ℚ)) (dn : Option ℚ)
    (disp : String) : Except String (List Warning) :=
  if t.network.baseline_samples ≤ nw.length then
    match sumOpt (pySliceLast t.network.baseline_samples nw) with
    | .error e => .error e
    | .ok s =>
      if t.network.baseline_samples = 0 then .error "ZeroDivisionError"
      else if 10 < s / (t.network.baseline_samples : ℚ) then
        match dn with
        | none => .error "TypeError"
        | some d =>
          if s / (t.network.baseline_samples : ℚ) * t.network.spike_multiplier < d then
            .ok [⟨"net_spike", "warning", "Network", "Network spike: " ++ disp⟩]
          else .ok []
      else .ok []
  else .ok []

/-- server.py line 741: `if gpu['usage'] is not None: _sustained['gpu'].append(...); gs = ...` —
the new GPU window together with the local `gs` (`None` when nothing was pushed). -/
def gpuPushPair (st : WinState) (gu : Option ℚ) : List ℚ × Option (List ℚ) :=
  match gu with
  | some g => (pushCap 12 st.gpuWin g, some (pushCap 12 st.gpuWin g))
  | none => (st.gpuWin, none)

/-- server.py lines 719-756: `_warnings(cpu, gpu, ram, net)`, including its
mutation of the rolling windows, in source order.  A raised Python exception
is an `Except.error`; note the `rp` comparison (line 734) raises before any
window is pushed. -/
def evalWarnings (t : Thresholds) (s : Sample) (st : WinState) :
    Except String (List Warning × WinState) :=
  match s.ram_usage_percent with
  | none => .error "TypeError"
  | some rp =>
    match netW t (pushCap 36 st.netWin s.net_download_kbps) s.net_download_kbps
        s.download_display with
    | .error e => .error e
    | .ok w4 =>
      .ok (cpuTempW t s.cpu_temp ++ gpuTempW t s.gpu_temp ++ voltW t s.cpu_voltage
             ++ ramW t rp ++ cpuSusW t (pushCap 12 st.cpuWin s.cpu_usage)
             ++ gpuSusW t (gpuPushPair st s.gpu_usage).2 ++ w4,
           ⟨pushCap 12 st.cpuWin s.cpu_usage, (gpuPushPair st s.gpu_usage).1,
            pushCap 36 st.netWin s.net_download_kbps⟩)

/-- Run the evaluator over a sequence of samples, threading the window state;
an exception aborts the run. Returns the per-call warning lists. -/
def runEval (t : Thresholds) (st : WinState) :
    List Sample → Except String (List (List Warning) × WinState)
  | [] => .ok ([], st)
  | s :: rest =>
    match evalWarnings t s st with
    | .error e => .error e
    | .ok (w, st2) =>
      match runEval t st2 rest with
      | .error e => .error e
      | .ok (ws, stf) => .ok (w :: ws, stf)

-- ── Profile store: the merge loop of `load_thresholds` (thresholds.py 130-145) ──

/-- Python dict lookup on an association list (first match). -/
def dlookup : List (String × α) → String → Option α
  | [], _ => none
  | (k, v) :: rest, key => if k = key then some v else dlookup rest key

/-- Python `m[k] = v` for a key already present: replace the stored value. -/
def dset (m : List (String × α)) (k : String) (v : α) : List (String × α) :=
  m.map (fun p => if p.1 = k then (k, v) else p)

/-- Two-level lookup: section then key. -/
def dlookup2 (m : List (String × List (String × α))) (sec key : String) : Option α :=
  match dlookup m sec with
  | none => none
  | some sv => dlookup sv key

/-- thresholds.py lines 142-144: `for k, v in vals.items(): if k not in
saved[section]: saved[section][k] = v` — add each default key missing from
the saved section. -/
def mergeSection (sv dv : List (String × α)) : List (String × α) :=
  dv.foldl (fun acc kv => if (dlookup acc kv.1).isSome then acc else acc ++ [kv]) sv

/-- thresholds.py lines 138-144: the union-merge of a saved profile with the
detected defaults (every default section is a dict, so the `elif` branch
always applies to a present section). -/
def mergeProfile (saved defaults : List (String × List (String × α))) :
    List (String × List (String × α)) :=
  defaults.foldl
    (fun acc sec =>
      match dlookup acc sec.1 with
      | none => acc ++ [sec]
      | some sv => dset acc sec.1 (mergeSection sv sec.2))
    saved

-- ── JSON values, `_validate` and `api_thresholds_post` (server.py) ───────────

/-- A parsed JSON value as handled by `_validate` (bools are `int`s in Python,
so they take the numeric branch; lists hit the final `bad type` branch). -/
inductive JVal where
  | jnull : JVal
  | jbool : Bool → JVal
  | jnum : ℚ → JVal
  | jstr : String → JVal
  | jobj : List (String × JVal) → JVal
  | jarr : List JVal → JVal

mutual

/-- server.py lines 84-97: `_validate(d, depth)`; `none` means `(True, None)`,
`some e` the error string of `(False, e)`. The depth guard runs first; a
`bool` satisfies `isinstance(d, (int, float))` and `0 <= d <= 10000`. -/
def pyValidate (d : Nat) : JVal → Option String
  | .jnull => if 3 < d then some "too nested" else none
  | .jbool _ => if 3 < d then some "too nested" else none
  | .jnum q =>
    if 3 < d then some "too nested"
    else if 0 ≤ q ∧ q ≤ 10000 then none
    else some ("out of range: " ++ pyStr q)
  | .jstr s =>
    if 3 < d then some "too nested"
    else if 100 < s.length then some "string too long" else none
  | .jobj l =>
    if 3 < d then some "too nested"
    else if 20 < l.length then some "too many keys"
    else pyValidateItems d l
  | .jarr _ =>
    if 3 < d then some "too nested" else some "bad type: <class 'list'>"

/-- The `for k, v in d.items()` loop of `_validate`: first failure wins. -/
def pyValidateItems (d : Nat) : List (String × JVal) → Option String
  | [] => none
  | (k, v) :: rest =>
    if 50 < k.length then some ("bad key: " ++ k)
    else
      match pyValidate (d + 1) v with
      | some e => some e
      | none => pyValidateItems d rest

end

/-- Python truthiness of the parsed request body (`if not d: return 'No data'`). -/
def jfalsy : JVal → Bool
  | .jnull => true
  | .jbool b => !b
  | .jnum q => q == 0
  | .jstr s => s.isEmpty
  | .jobj l => l.isEmpty
  | .jarr l => l.isEmpty

/-- server.py line 74: `ALLOWED_THRESHOLD_KEYS`. -/
def ALLOWED : List String := ["cpu", "gpu", "ram", "voltage", "network"]

/-- Python `dict.update`: merge-in each pair, replacing present keys and
appending new ones in iteration order. -/
def dictUpdate (m upd : List (String × JVal)) : List (String × JVal) :=
  upd.foldl
    (fun acc kv => if (dlookup acc kv.1).isSome then dset acc kv.1 kv.2 else acc ++ [kv])
    m

/-- server.py lines 884-885: `for k,v in d.items(): if k in
ALLOWED_THRESHOLD_KEYS and isinstance(v, dict): _thresh[k].update(v)`.
The loop mutates `_thresh` in place, one section per iteration; an allowed
section missing from the profile raises `KeyError` mid-loop, so the error
carries the profile as already mutated by the preceding iterations. -/
def mergeBody (th : List (String × List (String × JVal))) :
    List (String × JVal) →
      Except (String × List (String × List (String × JVal)))
        (List (String × List (String × JVal)))
  | [] => .ok th
  | (k, v) :: rest =>
    if k ∈ ALLOWED then
      match v with
      | .jobj fields =>
        match dlookup th k with
        | some sec => mergeBody (dset th k (dictUpdate sec fields)) rest
        | none => .error ("KeyError", th)
      | _ => mergeBody th rest
    else mergeBody th rest

/-- The outcome of a POST to `/api/thresholds`. -/
inductive PostResp where
  | noData : PostResp
  | invalid : String → PostResp
  | saved : PostResp
  | exn : String → PostResp
deriving DecidableEq, Repr

/-- server.py lines 877-887: `api_thresholds_post`, as a function of the parsed
request body and the in-memory profile `_thresh`; returns the response and the
in-memory profile afterwards. An uncaught exception (`.exn`, answered 500 by
Flask) leaves `_thresh` as mutated so far: a mid-loop `KeyError` keeps the
sections already merged in place by the earlier iterations. -/
def api_thresholds_post (body : JVal) (th : List (String × List (String × JVal))) :
    PostResp × List (String × List (String × JVal)) :=
  if jfalsy body then (.noData, th)
  else
    match pyValidate 0 body with
    | some e => (.invalid e, th)
    | none =>
      match body with
      | .jobj items =>
        match mergeBody th items with
        | .ok th2 => (.saved, th2)
        | .error e => (.exn e.1, e.2)
      | _ => (.exn "AttributeError", th)

-- ── Concrete inputs used by the claims ───────────────────────────────────────

/-- Scenario A sample: cpu temp 95 / usage 10, gpu temp 40 / usage 5,
ram 30, download 50. -/
def sampleA : Sample :=
  { cpu_usage := 10, cpu_temp := some 95, cpu_voltage := none
  , gpu_temp := some 40, gpu_usage := some 5
  , ram_usage_percent := some 30, net_download_kbps := some 50
  , download_display := "50 KB/s" }

/-- A sample whose cpu temp, gpu temp and voltage all read exactly 0. -/

def sampleZeroTemp : Sample :=
  { cpu_usage := 10, cpu_temp := some 0, cpu_voltage := some 0
  , gpu_temp := some 0, gpu_usage := none
  , ram_usage_percent := some 30, net_download_kbps := some 50
  , download_display := "50 KB/s" }

/-- A sample whose ram reading is null. -/

def sampleNoRam : Sample :=
  { cpu_usage := 10, cpu_temp := some 95, cpu_voltage := none
  , gpu_temp := none, gpu_usage := none
  , ram_usage_percent := none, net_download_kbps := some 50
  , download_display := "50 KB/s" }

/-- The all-nulls sample (only the always-present readings remain). -/

def sampleNulls : Sample :=
  { cpu_usage := 10, cpu_temp := none, cpu_voltage := none
  , gpu_temp := none, gpu_usage := none
  , ram_usage_percent := some 30, net_download_kbps := some 50
  , download_display := "50 KB/s" }

/-- A burst sample: cpu usage 96 with everything else benign. -/

def sampleBurst : Sample :=
  { cpu_usage := 96, cpu_temp := none, cpu_voltage := none
  , gpu_temp := none, gpu_usage := none
  , ram_usage_percent := some 30, net_download_kbps := some 50
  , download_display := "50 KB/s" }

/-- Concrete inputs exercising every conjunct of the amended C3. -/

def c3sample : Sample :=
  { cpu_usage := 96, cpu_temp := some 95, cpu_voltage := none
  , gpu_temp := some 96, gpu_usage := some 99
  , ram_usage_percent := some 94, net_download_kbps := some 50
  , download_display := "50 KB/s" }

def c3state : WinState :=
  ⟨[96, 96, 96, 96, 96], [99, 99, 99, 99, 99], []⟩

def c3w : List Warning :=
  [⟨"cpu_temp_crit", "critical", "CPU", "CPU temp critical: 95°C"⟩,
   ⟨"gpu_temp_crit", "critical", "GPU", "GPU temp critical: 96°C"⟩,
   ⟨"ram_crit", "critical", "RAM", "RAM critical: 94%"⟩,
   ⟨"cpu_sc", "critical", "CPU", "CPU sustained 96%"⟩,
   ⟨"gpu_sc", "critical", "GPU", "GPU sustained 99%"⟩]

def c3state2 : WinState :=
  ⟨[96, 96, 96, 96, 96, 96], [99, 99, 99, 99, 99, 99], [some 50]⟩

/-- The sample of the sustained-boundary scenarios: a bare usage reading with
benign always-present fields. -/

def susSample (u : ℚ) : Sample :=
  { cpu_usage := u, cpu_temp := none, cpu_voltage := none
  , gpu_temp := none, gpu_usage := none
  , ram_usage_percent := some 0, net_download_kbps := some 0
  , download_display := "" }

/-- The 60-second-sustain profile of concrete scenario C. -/

def profile60 : Thresholds :=
  { DEFAULT_THRESHOLDS with
      cpu := { DEFAULT_THRESHOLDS.cpu with usage_sustain_sec := 60 } }

/-- Replace only the GPU section's `usage_sustain_sec`. -/

def setGpuSus (t : Thresholds) (q : ℚ) : Thresholds :=
  { t with gpu := { t.gpu with usage_sustain_sec := q } }

/-- A profile whose CPU and GPU sustain windows differ: 5 s for the CPU
(one sample) and 60 s for the GPU (12 samples at the 5-second poll). -/

def profC6 : Thresholds :=
  { DEFAULT_THRESHOLDS with
      cpu := { DEFAULT_THRESHOLDS.cpu with usage_sustain_sec := 5 }
    , gpu := { DEFAULT_THRESHOLDS.gpu with usage_sustain_sec := 60 } }

def sampleC6 : Sample :=
  { cpu_usage := 0, cpu_temp := none, cpu_voltage := none
  , gpu_temp := none, gpu_usage := some 100
  , ram_usage_percent := some 0, net_download_kbps := some 0
  , download_display := "" }

def c6w : List Warning := [⟨"gpu_sc", "critical", "GPU", "GPU sustained 100%"⟩]

/-- A profile with `baseline_samples = 1`. -/

def profC7 : Thresholds :=
  { DEFAULT_THRESHOLDS with
      network := { DEFAULT_THRESHOLDS.network with baseline_samples := 1 } }

def sampleC7 : Sample :=
  { cpu_usage := 0, cpu_temp := none, cpu_voltage := none
  , gpu_temp := none, gpu_usage := none
  , ram_usage_percent := some 0, net_download_kbps := some 100
  , download_display := "100 KB/s" }

/-- First-of-two option choice (Python's "present key wins"). -/

def oOr : Option α → Option α → Option α
  | some v, _ => some v
  | none, b => b

/-- The generic default profile as the nested dict `detect_thresholds` returns
for unknown hardware (numeric sections only; the `_detected_from` provenance
section carries strings and is covered by the value-generic theorem). -/

def defaultsAList : List (String × List (String × ℚ)) :=
  [("cpu", [("temp_warn", 75), ("temp_crit", 90), ("volt_min", 9/10),
            ("volt_max", 29/20), ("usage_warn", 85), ("usage_crit", 95),
            ("usage_sustain_sec", 30)]),
   ("gpu", [("temp_warn", 80), ("temp_crit", 95), ("usage_warn", 90),
            ("usage_crit", 98), ("usage_sustain_sec", 30)]),
   ("ram", [("usage_warn", 80), ("usage_crit", 92)]),
   ("network", [("spike_multiplier", 5), ("baseline_samples", 12)]),
   ("voltage", [("cpu_min", 9/10), ("cpu_max", 29/20)])]

/-- A persisted profile with one customised key and everything else missing. -/

def savedProfile : List (String × List (String × ℚ)) := [("cpu", [("temp_warn", 70)])]

/-- A request body whose only top-level section is outside the allowed set. -/

def bodyUnknown : JVal := .jobj [("hacker", .jobj [("x", .jnum 1)])]

/-- A small in-memory profile with all five allowed sections. -/

def threshJ : List (String × List (String × JVal)) :=
  [("cpu", [("temp_warn", .jnum 75), ("temp_crit", .jnum 90)]),
   ("gpu", [("temp_warn", .jnum 80)]),
   ("ram", [("usage_warn", .jnum 80)]),
   ("network", [("baseline_samples", .jnum 12)]),
   ("voltage", [("cpu_max", .jnum (29/20))])]

/-- A request body with an out-of-range numeric value, rejected by `_validate`. -/
def bodyBad : JVal := .jobj [("cpu", .jobj [("temp_warn", .jnum 20000)])]

/-- A profile missing the allowed `gpu` section. -/
def threshNoGpu : List (String × List (String × JVal)) :=
  [("cpu", [("temp_warn", .jnum 75)]), ("ram", []), ("network", []), ("voltage", [])]

/-- A body touching `cpu` first and then the missing `gpu` section. -/
def bodyCpuGpu : JVal :=
  .jobj [("cpu", .jobj [("temp_warn", .jnum 70)]),
         ("gpu", .jobj [("temp_warn", .jnum 70)])]

-- ── Helper lemmas about the rule segments ────────────────────────────────────

theorem mem_cpuTempW {t : Thresholds} {ct : Option ℚ} {x : Warning}
    (hx : x ∈ cpuTempW t ct) :
    x.id = "cpu_temp_crit" ∨ x.id = "cpu_temp_warn" := by
  rcases ct with _ | c
  · simp [cpuTempW] at hx
  · simp only [cpuTempW] at hx
    split_ifs at hx <;> simp_all

theorem mem_gpuTempW {t : Thresholds} {gt : Option ℚ} {x : Warning}
    (hx : x ∈ gpuTempW t gt) :
    x.id = "gpu_temp_crit" ∨ x.id = "gpu_temp_warn" := by
  rcases gt with _ | g
  · simp [gpuTempW] at hx
  · simp only [gpuTempW] at hx
    split_ifs at hx <;> simp_all

theorem mem_voltW {t : Thresholds} {cv : Option ℚ} {x : Warning}
    (hx : x ∈ voltW t cv) :
    x.id = "cpu_volt_high" ∨ x.id = "cpu_volt_low" := by
  rcases cv with _ | v
  · simp [voltW] at hx
  · simp only [voltW] at hx
    split_ifs at hx <;> simp_all

theorem mem_ramW {t : Thresholds} {rp : ℚ} {x : Warning}
    (hx : x ∈ ramW t rp) :
    x.id = "ram_crit" ∨ x.id = "ram_warn" := by
  unfold ramW at hx
  split_ifs at hx <;> simp_all

theorem mem_cpuSusW {t : Thresholds} {cs : List ℚ} {x : Warning}
    (hx : x ∈ cpuSusW t cs) :
    x.id = "cpu_sc" ∨ x.id = "cpu_sw" := by
  simp only [cpuSusW] at hx
  split_ifs at hx <;> simp_all

theorem mem_gpuSusW {t : Thresholds} {gs : Option (List ℚ)} {x : Warning}
    (hx : x ∈ gpuSusW t gs) :
    x.id = "gpu_sc" ∨ x.id = "gpu_sw" := by
  rcases gs with _ | l
  · simp [gpuSusW] at hx
  · simp only [gpuSusW] at hx
    split_ifs at hx <;> simp_all

theorem netW_ok_cases {t : Thresholds} {nw : List (Option ℚ)} {dn : Option ℚ}
    {disp : String} {w4 : List Warning} (hok : netW t nw dn disp = .ok w4) :
    w4 = [] ∨ w4 = [⟨"net_spike", "warning", "Network", "Network spike: " ++ disp⟩] := by
  unfold netW at hok
  by_cases h1 : t.network.baseline_samples ≤ nw.length
  · rw [if_pos h1] at hok
    rcases hs : sumOpt (pySliceLast t.network.baseline_samples nw) with e | sq
    · rw [hs] at hok
      exact absurd hok (by simp)
    · rw [hs] at hok
      simp only [] at hok
      by_cases h2 : t.network.baseline_samples = 0
      · rw [if_pos h2] at hok
        exact absurd hok (by simp)
      · rw [if_neg h2] at hok
        by_cases h3 : 10 < sq / (t.network.baseline_samples : ℚ)
        · rw [if_pos h3] at hok
          rcases dn with _ | d
          · exact absurd hok (by simp)
          · simp only [] at hok
            by_cases h4 :
                sq / (t.network.baseline_samples : ℚ) * t.network.spike_multiplier < d
            · rw [if_pos h4] at hok
              right
              exact ((Except.ok.injEq _ _).mp hok).symm
            · rw [if_neg h4] at hok
              left
              exact ((Except.ok.injEq _ _).mp hok).symm
        · rw [if_neg h3] at hok
          left
          exact ((Except.ok.injEq _ _).mp hok).symm
  · rw [if_neg h1] at hok
    left
    exact ((Except.ok.injEq _ _).mp hok).symm

theorem mem_netW_ok {t : Thresholds} {nw : List (Option ℚ)} {dn : Option ℚ}
    {disp : String} {w4 : List Warning} {x : Warning}
    (hok : netW t nw dn disp = .ok w4) (hx : x ∈ w4) :
    x.id = "net_spike" ∧ x.level = "warning" := by
  rcases netW_ok_cases hok with h | h <;> subst h <;> simp_all

/-- Structure of a successful evaluation: the ram reading was present, the
network rule succeeded, and the warning list is the concatenation of the
seven rule segments in source order, with the windows pushed as coded. -/
theorem evalWarnings_ok_iff {t : Thresholds} {s : Sample} {st : WinState}
    {w : List Warning} {st2 : WinState} :
    evalWarnings t s st = .ok (w, st2) ↔
      ∃ rp w4, s.ram_usage_percent = some rp ∧
        netW t (pushCap 36 st.netWin s.net_download_kbps) s.net_download_kbps
            s.download_display = .ok w4 ∧
        w = cpuTempW t s.cpu_temp ++ gpuTempW t s.gpu_temp ++ voltW t s.cpu_voltage
            ++ ramW t rp ++ cpuSusW t (pushCap 12 st.cpuWin s.cpu_usage)
            ++ gpuSusW t (gpuPushPair st s.gpu_usage).2 ++ w4 ∧
        st2 = ⟨pushCap 12 st.cpuWin s.cpu_usage, (gpuPushPair st s.gpu_usage).1,
               pushCap 36 st.netWin s.net_download_kbps⟩ := by
  unfold evalWarnings
  rcases hr : s.ram_usage_percent with _ | rp
  · simp [hr]
  · rcases hn : netW t (pushCap 36 st.netWin s.net_download_kbps) s.net_download_kbps
        s.download_display with e | w4
    · simp
    · simp only []
      constructor
      · intro h
        rcases (Except.ok.injEq _ _).mp h.symm with h2
        exact ⟨rp, w4, rfl, rfl, (congrArg Prod.fst h2),
               (congrArg Prod.snd h2)⟩
      · rintro ⟨rp2, w5, hrp2, hw5, hw, hst⟩
        rcases (Option.some.injEq _ _).mp hrp2 with rfl
        rcases (Except.ok.injEq _ _).mp hw5 with rfl
        subst hw
        subst hst
        rfl

/-- C1: from empty rolling windows and the generic default profile, evaluating
the scenario-A sample returns exactly one warning, with id `cpu_temp_crit`
and level `critical`. -/
theorem C1_scenario_a :
    (evalWarnings DEFAULT_THRESHOLDS sampleA emptyState).map
        (fun p => p.1.map (fun w => (w.id, w.level)))
      = .ok [("cpu_temp_crit", "critical")] := by
  norm_num [evalWarnings, cpuTempW, gpuTempW, voltW, ramW, snOf, cpuSusW, gpuSusW,
    netW, pushCap, sumOpt, pySliceLast, pyStr, pyFmt0, roundHalfEven,
    sampleA, DEFAULT_THRESHOLDS, emptyState]
  decide

/-- Every warning of a successful evaluation comes from one of the seven rule
segments, and carries that segment's id (and for the network rule, level). -/
theorem eval_mem_id_cases {t : Thresholds} {s : Sample} {st : WinState}
    {w : List Warning} {st2 : WinState} {x : Warning}
    (hok : evalWarnings t s st = .ok (w, st2)) (hx : x ∈ w) :
      (x ∈ cpuTempW t s.cpu_temp ∧ (x.id = "cpu_temp_crit" ∨ x.id = "cpu_temp_warn"))
    ∨ (x ∈ gpuTempW t s.gpu_temp ∧ (x.id = "gpu_temp_crit" ∨ x.id = "gpu_temp_warn"))
    ∨ (x ∈ voltW t s.cpu_voltage ∧ (x.id = "cpu_volt_high" ∨ x.id = "cpu_volt_low"))
    ∨ ((∃ rp, s.ram_usage_percent = some rp ∧ x ∈ ramW t rp)
        ∧ (x.id = "ram_crit" ∨ x.id = "ram_warn"))
    ∨ (x ∈ cpuSusW t (pushCap 12 st.cpuWin s.cpu_usage)
        ∧ (x.id = "cpu_sc" ∨ x.id = "cpu_sw"))
    ∨ (x ∈ gpuSusW t (gpuPushPair st s.gpu_usage).2
        ∧ (x.id = "gpu_sc" ∨ x.id = "gpu_sw"))
    ∨ (x.id = "net_spike" ∧ x.level = "warning") := by
  rcases evalWarnings_ok_iff.mp hok with ⟨rp, w4, hrp, hnet, hw, _⟩
  subst hw
  simp only [List.mem_append] at hx
  rcases hx with (((((h | h) | h) | h) | h) | h) | h
  · exact Or.inl ⟨h, mem_cpuTempW h⟩
  · exact Or.inr (Or.inl ⟨h, mem_gpuTempW h⟩)
  · exact Or.inr (Or.inr (Or.inl ⟨h, mem_voltW h⟩))
  · exact Or.inr (Or.inr (Or.inr (Or.inl ⟨⟨rp, hrp, h⟩, mem_ramW h⟩)))
  · exact Or.inr (Or.inr (Or.inr (Or.inr (Or.inl ⟨h, mem_cpuSusW h⟩))))
  · exact Or.inr (Or.inr (Or.inr (Or.inr (Or.inr (Or.inl ⟨h, mem_gpuSusW h⟩)))))
  · exact Or.inr (Or.inr (Or.inr (Or.inr (Or.inr (Or.inr (mem_netW_ok hnet h))))))

/-- C10: a reading of exactly 0 for cpu temp, gpu temp or cpu voltage is
treated like an absent sensor — the evaluation result is identical to the one
for the `None` reading, and no temperature/voltage warning for that component
is emitted, whatever the configured thresholds. -/
theorem C10_zero_reading_like_absent :
    (∀ (t : Thresholds) (s : Sample) (st : WinState),
        evalWarnings t { s with cpu_temp := some 0 } st
          = evalWarnings t { s with cpu_temp := none } st
      ∧ evalWarnings t { s with gpu_temp := some 0 } st
          = evalWarnings t { s with gpu_temp := none } st
      ∧ evalWarnings t { s with cpu_voltage := some 0 } st
          = evalWarnings t { s with cpu_voltage := none } st)
    ∧ (∀ (t : Thresholds) (s : Sample) (st : WinState) (w : List Warning)
        (st2 : WinState), evalWarnings t s st = .ok (w, st2) →
        (s.cpu_temp = some 0 →
          ∀ x ∈ w, x.id ≠ "cpu_temp_crit" ∧ x.id ≠ "cpu_temp_warn")
      ∧ (s.gpu_temp = some 0 →
          ∀ x ∈ w, x.id ≠ "gpu_temp_crit" ∧ x.id ≠ "gpu_temp_warn")
      ∧ (s.cpu_voltage = some 0 →
          ∀ x ∈ w, x.id ≠ "cpu_volt_high" ∧ x.id ≠ "cpu_volt_low")) := by
  constructor
  · intro t s st
    obtain ⟨u, ct, cv, gt, gu, rp, dn, disp⟩ := s
    refine ⟨?_, ?_, ?_⟩ <;>
      · unfold evalWarnings
        cases rp <;>
          simp [cpuTempW, gpuTempW, voltW]
  · intro t s st w st2 hok
    refine ⟨?_, ?_, ?_⟩ <;> intro hzero x hx
    · rcases eval_mem_id_cases hok hx with
        ⟨hm, _⟩ | ⟨_, h | h⟩ | ⟨_, h | h⟩ | ⟨_, h | h⟩ | ⟨_, h | h⟩ | ⟨_, h | h⟩ | ⟨h, _⟩ <;>
        first
        | (rw [hzero] at hm; simp [cpuTempW] at hm)
        | (rw [h]; exact ⟨by decide, by decide⟩)
    · rcases eval_mem_id_cases hok hx with
        ⟨_, h | h⟩ | ⟨hm, _⟩ | ⟨_, h | h⟩ | ⟨_, h | h⟩ | ⟨_, h | h⟩ | ⟨_, h | h⟩ | ⟨h, _⟩ <;>
        first
        | (rw [hzero] at hm; simp [gpuTempW] at hm)
        | (rw [h]; exact ⟨by decide, by decide⟩)
    · rcases eval_mem_id_cases hok hx with
        ⟨_, h | h⟩ | ⟨_, h | h⟩ | ⟨hm, _⟩ | ⟨_, h | h⟩ | ⟨_, h | h⟩ | ⟨_, h | h⟩ | ⟨h, _⟩ <;>
        first
        | (rw [hzero] at hm; simp [voltW] at hm)
        | (rw [h]; exact ⟨by decide, by decide⟩)

theorem C10_zero_reading_like_absent_witness :
    evalWarnings DEFAULT_THRESHOLDS { sampleZeroTemp with cpu_temp := some 0 } emptyState
        = evalWarnings DEFAULT_THRESHOLDS { sampleZeroTemp with cpu_temp := none } emptyState
    ∧ ∀ x ∈ ([] : List Warning), x.id ≠ "cpu_temp_crit" ∧ x.id ≠ "cpu_temp_warn" := by
  constructor
  · exact (C10_zero_reading_like_absent.1 DEFAULT_THRESHOLDS sampleZeroTemp emptyState).1
  · intro x hx
    exact absurd hx (List.not_mem_nil x)

-- ── Claim C2 ─────────────────────────────────────────────────────────────────

theorem sumOpt_isOk {l : List (Option ℚ)} (h : ∀ o ∈ l, o.isSome) :
    ∃ q, sumOpt l = .ok q := by
  induction l with
  | nil => exact ⟨0, rfl⟩
  | cons a tl ih =>
    rcases a with _ | x
    · exact absurd (h none (List.mem_cons_self _ _)) (by simp)
    · obtain ⟨q, hq⟩ := ih (fun o ho => h o (List.mem_cons_of_mem _ ho))
      exact ⟨x + q, by simp [sumOpt, hq, Except.map]⟩

theorem mem_pySliceLast {x : α} {n : Nat} {l : List α} (h : x ∈ pySliceLast n l) :
    x ∈ l := by
  unfold pySliceLast at h
  split_ifs at h
  · exact h
  · exact List.mem_of_mem_drop h

theorem mem_pushCap {x a : α} {cap : Nat} {l : List α} (h : x ∈ pushCap cap l a) :
    x ∈ l ++ [a] := by
  simp only [pushCap] at h
  split_ifs at h
  · exact List.mem_of_mem_drop h
  · exact h

/-- With a present download reading, a null-free window and a nonzero
`baseline_samples`, the network rule cannot raise. -/
theorem netW_isOk {t : Thresholds} {nw : List (Option ℚ)} {d : ℚ} {disp : String}
    (h1 : ∀ o ∈ nw, o.isSome) (h2 : t.network.baseline_samples ≠ 0) :
    ∃ w4, netW t nw (some d) disp = .ok w4 := by
  unfold netW
  by_cases hlen : t.network.baseline_samples ≤ nw.length
  · rw [if_pos hlen]
    obtain ⟨q, hq⟩ := sumOpt_isOk
      (fun o ho => h1 o (mem_pySliceLast ho))
    rw [hq]
    simp only [if_neg h2]
    by_cases h3 : 10 < q / (t.network.baseline_samples : ℚ)
    · rw [if_pos h3]
      by_cases h4 : q / (t.network.baseline_samples : ℚ) * t.network.spike_multiplier < d
      · exact ⟨_, by rw [if_pos h4]⟩
      · exact ⟨_, by rw [if_neg h4]⟩
    · exact ⟨_, by rw [if_neg h3]⟩
  · exact ⟨_, by rw [if_neg hlen]⟩

/-- C2 counterexample: a sample whose (optional, per the spec) ram reading is
null makes the evaluator raise a `TypeError` — refuting the claim that every
null optional field is handled without an exception. -/
theorem C2_null_ram_raises :
    evalWarnings DEFAULT_THRESHOLDS sampleNoRam emptyState = .error "TypeError" := rfl

/-- C2 (amended): with the ram and network readings present (they always are in
practice), a null-free network window and a nonzero `baseline_samples`, any
combination of null cpu temp / gpu temp / cpu voltage / gpu usage evaluates
without an exception; a null reading's own rule emits nothing, and a null GPU
usage leaves the GPU window untouched. -/
theorem C2_amended_null_safety (t : Thresholds) (s : Sample) (st : WinState)
    (rp dn : ℚ) (hrp : s.ram_usage_percent = some rp)
    (hdn : s.net_download_kbps = some dn)
    (hwin : ∀ o ∈ st.netWin, o.isSome)
    (hnb : t.network.baseline_samples ≠ 0) :
    ∃ w st2, evalWarnings t s st = .ok (w, st2)
      ∧ (s.cpu_temp = none →
          ∀ x ∈ w, x.id ≠ "cpu_temp_crit" ∧ x.id ≠ "cpu_temp_warn")
      ∧ (s.gpu_temp = none →
          ∀ x ∈ w, x.id ≠ "gpu_temp_crit" ∧ x.id ≠ "gpu_temp_warn")
      ∧ (s.cpu_voltage = none →
          ∀ x ∈ w, x.id ≠ "cpu_volt_high" ∧ x.id ≠ "cpu_volt_low")
      ∧ (s.gpu_usage = none →
          (∀ x ∈ w, x.id ≠ "gpu_sc" ∧ x.id ≠ "gpu_sw") ∧ st2.gpuWin = st.gpuWin) := by
  have hpush : ∀ o ∈ pushCap 36 st.netWin (some dn), o.isSome := by
    intro o ho
    rcases List.mem_append.mp (mem_pushCap ho) with h | h
    · exact hwin o h
    · simp at h
      simp [h]
  have hex : ∃ w4, netW t (pushCap 36 st.netWin s.net_download_kbps)
      s.net_download_kbps s.download_display = .ok w4 := by
    rw [hdn]
    exact netW_isOk hpush hnb
  obtain ⟨w4, hw4⟩ := hex
  have hok : evalWarnings t s st =
      .ok (cpuTempW t s.cpu_temp ++ gpuTempW t s.gpu_temp ++ voltW t s.cpu_voltage
            ++ ramW t rp ++ cpuSusW t (pushCap 12 st.cpuWin s.cpu_usage)
            ++ gpuSusW t (gpuPushPair st s.gpu_usage).2 ++ w4,
           ⟨pushCap 12 st.cpuWin s.cpu_usage, (gpuPushPair st s.gpu_usage).1,
            pushCap 36 st.netWin s.net_download_kbps⟩) :=
    evalWarnings_ok_iff.mpr ⟨rp, w4, hrp, hw4, rfl, rfl⟩
  refine ⟨_, _, hok, ?_, ?_, ?_, ?_⟩
  · intro hnone x hx
    rcases eval_mem_id_cases hok hx with
      ⟨hm, _⟩ | ⟨_, h | h⟩ | ⟨_, h | h⟩ | ⟨_, h | h⟩ | ⟨_, h | h⟩ | ⟨_, h | h⟩ | ⟨h, _⟩ <;>
      first
      | (rw [hnone] at hm; simp [cpuTempW] at hm)
      | (rw [h]; exact ⟨by decide, by decide⟩)
  · intro hnone x hx
    rcases eval_mem_id_cases hok hx with
      ⟨_, h | h⟩ | ⟨hm, _⟩ | ⟨_, h | h⟩ | ⟨_, h | h⟩ | ⟨_, h | h⟩ | ⟨_, h | h⟩ | ⟨h, _⟩ <;>
      first
      | (rw [hnone] at hm; simp [gpuTempW] at hm)
      | (rw [h]; exact ⟨by decide, by decide⟩)
  · intro hnone x hx
    rcases eval_mem_id_cases hok hx with
      ⟨_, h | h⟩ | ⟨_, h | h⟩ | ⟨hm, _⟩ | ⟨_, h | h⟩ | ⟨_, h | h⟩ | ⟨_, h | h⟩ | ⟨h, _⟩ <;>
      first
      | (rw [hnone] at hm; simp [voltW] at hm)
      | (rw [h]; exact ⟨by decide, by decide⟩)
  · intro hnone
    constructor
    · intro x hx
      rcases eval_mem_id_cases hok hx with
        ⟨_, h | h⟩ | ⟨_, h | h⟩ | ⟨_, h | h⟩ | ⟨_, h | h⟩ | ⟨_, h | h⟩ | ⟨hm, _⟩ | ⟨h, _⟩ <;>
        first
        | (rw [hnone] at hm; simp [gpuPushPair, gpuSusW] at hm)
        | (rw [h]; exact ⟨by decide, by decide⟩)
    · simp [gpuPushPair, hnone]

theorem C2_amended_null_safety_witness :
    ∃ w st2, evalWarnings DEFAULT_THRESHOLDS sampleNulls emptyState = .ok (w, st2)
      ∧ (sampleNulls.cpu_temp = none →
          ∀ x ∈ w, x.id ≠ "cpu_temp_crit" ∧ x.id ≠ "cpu_temp_warn")
      ∧ (sampleNulls.gpu_temp = none →
          ∀ x ∈ w, x.id ≠ "gpu_temp_crit" ∧ x.id ≠ "gpu_temp_warn")
      ∧ (sampleNulls.cpu_voltage = none →
          ∀ x ∈ w, x.id ≠ "cpu_volt_high" ∧ x.id ≠ "cpu_volt_low")
      ∧ (sampleNulls.gpu_usage = none →
          (∀ x ∈ w, x.id ≠ "gpu_sc" ∧ x.id ≠ "gpu_sw") ∧ st2.gpuWin = emptyState.gpuWin) :=
  C2_amended_null_safety DEFAULT_THRESHOLDS sampleNulls emptyState 30 50 rfl rfl
    (by simp [emptyState]) (by decide)

-- ── Claim C3 ─────────────────────────────────────────────────────────────────

/-- C3 counterexample: with the generic defaults (whose `usage_warn ≤
usage_crit`), a first evaluation with `cpu.usage = 96 ≥ usage_crit = 95`
yields no CPU sustained-usage warning at all — a sample at or above
`*_crit` does not always yield a critical warning for the usage rules,
because the sustained window must fill first. -/
theorem C3_usage_crit_sample_no_warning :
    DEFAULT_THRESHOLDS.cpu.usage_warn ≤ DEFAULT_THRESHOLDS.cpu.usage_crit
    ∧ DEFAULT_THRESHOLDS.cpu.usage_crit ≤ sampleBurst.cpu_usage
    ∧ (evalWarnings DEFAULT_THRESHOLDS sampleBurst emptyState).map (fun p => p.1)
        = .ok [] := by
  refine ⟨by norm_num [DEFAULT_THRESHOLDS],
          by norm_num [DEFAULT_THRESHOLDS, sampleBurst], ?_⟩
  norm_num [evalWarnings, cpuTempW, gpuTempW, voltW, ramW, snOf, cpuSusW, gpuSusW,
    netW, pushCap, sumOpt, pySliceLast, meanQ, gpuPushPair, Except.map,
    sampleBurst, DEFAULT_THRESHOLDS, emptyState]

/-- `sn = max(1, ...)` is at least one. -/
theorem one_le_snOf (t : Thresholds) : (1 : ℚ) ≤ snOf t := le_max_left _ _

/-- C3 (amended): the instantaneous two-tier rules (temperature with a nonzero
reading, RAM) emit the critical entry and never the corresponding warn entry
once the reading reaches `*_crit`; for the sustained usage rules the same
holds for the window mean once the window holds the required sample count. -/
theorem C3_amended_monotonic_severity (t : Thresholds) (s : Sample)
    (st : WinState) (w : List Warning) (st2 : WinState)
    (hok : evalWarnings t s st = .ok (w, st2)) :
    (∀ c, s.cpu_temp = some c → c ≠ 0 → t.cpu.temp_crit ≤ c →
      (∃ x ∈ w, x.id = "cpu_temp_crit" ∧ x.level = "critical")
      ∧ ∀ x ∈ w, x.id ≠ "cpu_temp_warn")
    ∧ (∀ g, s.gpu_temp = some g → g ≠ 0 → t.gpu.temp_crit ≤ g →
      (∃ x ∈ w, x.id = "gpu_temp_crit" ∧ x.level = "critical")
      ∧ ∀ x ∈ w, x.id ≠ "gpu_temp_warn")
    ∧ (∀ rp, s.ram_usage_percent = some rp → t.ram.usage_crit ≤ rp →
      (∃ x ∈ w, x.id = "ram_crit" ∧ x.level = "critical")
      ∧ ∀ x ∈ w, x.id ≠ "ram_warn")
    ∧ (snOf t ≤ ((pushCap 12 st.cpuWin s.cpu_usage).length : ℚ) →
       t.cpu.usage_crit ≤ meanQ (pushCap 12 st.cpuWin s.cpu_usage) →
      (∃ x ∈ w, x.id = "cpu_sc" ∧ x.level = "critical")
      ∧ ∀ x ∈ w, x.id ≠ "cpu_sw")
    ∧ (∀ g, s.gpu_usage = some g →
       snOf t ≤ ((pushCap 12 st.gpuWin g).length : ℚ) →
       t.gpu.usage_crit ≤ meanQ (pushCap 12 st.gpuWin g) →
      (∃ x ∈ w, x.id = "gpu_sc" ∧ x.level = "critical")
      ∧ ∀ x ∈ w, x.id ≠ "gpu_sw") := by
  obtain ⟨rp0, w40, hrp0, hnet0, hw0, hst0⟩ := evalWarnings_ok_iff.mp hok
  refine ⟨?_, ?_, ?_, ?_, ?_⟩
  · intro c hc hne hcrit
    have hseg : cpuTempW t s.cpu_temp
        = [⟨"cpu_temp_crit", "critical", "CPU",
            "CPU temp critical: " ++ pyStr c ++ "°C"⟩] := by
      rw [hc]
      simp [cpuTempW, if_neg hne, if_pos hcrit]
    constructor
    · refine ⟨⟨"cpu_temp_crit", "critical", "CPU",
          "CPU temp critical: " ++ pyStr c ++ "°C"⟩, ?_, rfl, rfl⟩
      rw [hw0, hseg]
      simp
    · intro x hx
      rcases eval_mem_id_cases hok hx with
        ⟨hm, _⟩ | ⟨_, h | h⟩ | ⟨_, h | h⟩ | ⟨_, h | h⟩ | ⟨_, h | h⟩ | ⟨_, h | h⟩ | ⟨h, _⟩ <;>
        first
        | (rw [hseg] at hm; simp at hm; subst hm; simp)
        | (rw [h]; simp)
  · intro g hg hne hcrit
    have hseg : gpuTempW t s.gpu_temp
        = [⟨"gpu_temp_crit", "critical", "GPU",
            "GPU temp critical: " ++ pyStr g ++ "°C"⟩] := by
      rw [hg]
      simp [gpuTempW, if_neg hne, if_pos hcrit]
    constructor
    · refine ⟨⟨"gpu_temp_crit", "critical", "GPU",
          "GPU temp critical: " ++ pyStr g ++ "°C"⟩, ?_, rfl, rfl⟩
      rw [hw0, hseg]
      simp
    · intro x hx
      rcases eval_mem_id_cases hok hx with
        ⟨_, h | h⟩ | ⟨hm, _⟩ | ⟨_, h | h⟩ | ⟨_, h | h⟩ | ⟨_, h | h⟩ | ⟨_, h | h⟩ | ⟨h, _⟩ <;>
        first
        | (rw [hseg] at hm; simp at hm; subst hm; simp)
        | (rw [h]; simp)
  · intro rp hrp hcrit
    have hrp1 : rp0 = rp := by
      rw [hrp0] at hrp
      exact (Option.some.injEq _ _).mp hrp
    subst hrp1
    have hseg : ramW t rp0
        = [⟨"ram_crit", "critical", "RAM",
            "RAM critical: " ++ pyStr rp0 ++ "%"⟩] := by
      simp [ramW, if_pos hcrit]
    constructor
    · refine ⟨⟨"ram_crit", "critical", "RAM",
          "RAM critical: " ++ pyStr rp0 ++ "%"⟩, ?_, rfl, rfl⟩
      rw [hw0, hseg]
      simp
    · intro x hx
      rcases eval_mem_id_cases hok hx with
        ⟨_, h | h⟩ | ⟨_, h | h⟩ | ⟨_, h | h⟩ | ⟨⟨rp2, hrp2, hm⟩, _⟩ |
          ⟨_, h | h⟩ | ⟨_, h | h⟩ | ⟨h, _⟩ <;>
        first
        | (rw [hrp0] at hrp2;
           rcases (Option.some.injEq _ _).mp hrp2 with rfl;
           rw [hseg] at hm; simp at hm; subst hm; simp)
        | (rw [h]; simp)
  · intro hlen hcrit
    have hseg : cpuSusW t (pushCap 12 st.cpuWin s.cpu_usage)
        = [⟨"cpu_sc", "critical", "CPU",
            "CPU sustained " ++ pyFmt0 (meanQ (pushCap 12 st.cpuWin s.cpu_usage)) ++ "%"⟩] := by
      simp [cpuSusW, if_pos hlen, if_pos hcrit]
    constructor
    · refine ⟨⟨"cpu_sc", "critical", "CPU", "CPU sustained "
          ++ pyFmt0 (meanQ (pushCap 12 st.cpuWin s.cpu_usage)) ++ "%"⟩, ?_, rfl, rfl⟩
      rw [hw0, hseg]
      simp
    · intro x hx
      rcases eval_mem_id_cases hok hx with
        ⟨_, h | h⟩ | ⟨_, h | h⟩ | ⟨_, h | h⟩ | ⟨_, h | h⟩ | ⟨hm, _⟩ | ⟨_, h | h⟩ | ⟨h, _⟩ <;>
        first
        | (rw [hseg] at hm; simp at hm; subst hm; simp)
        | (rw [h]; simp)
  · intro g hg hlen hcrit
    have hne : ¬((pushCap 12 st.gpuWin g).isEmpty = true) := by
      intro he
      rw [List.isEmpty_iff] at he
      rw [he] at hlen
      have h1 := one_le_snOf t
      simp at hlen
      exact absurd (le_trans h1 hlen) (by norm_num)
    have hpair : (gpuPushPair st s.gpu_usage).2 = some (pushCap 12 st.gpuWin g) := by
      rw [hg]
      simp [gpuPushPair]
    have hseg : gpuSusW t (gpuPushPair st s.gpu_usage).2
        = [⟨"gpu_sc", "critical", "GPU",
            "GPU sustained " ++ pyFmt0 (meanQ (pushCap 12 st.gpuWin g)) ++ "%"⟩] := by
      rw [hpair]
      simp only [gpuSusW]
      rw [if_neg hne, if_pos hlen, if_pos hcrit]
    constructor
    · refine ⟨⟨"gpu_sc", "critical", "GPU", "GPU sustained "
          ++ pyFmt0 (meanQ (pushCap 12 st.gpuWin g)) ++ "%"⟩, ?_, rfl, rfl⟩
      rw [hw0, hseg]
      simp
    · intro x hx
      rcases eval_mem_id_cases hok hx with
        ⟨_, h | h⟩ | ⟨_, h | h⟩ | ⟨_, h | h⟩ | ⟨_, h | h⟩ | ⟨_, h | h⟩ | ⟨hm, _⟩ | ⟨h, _⟩ <;>
        first
        | (rw [hseg] at hm; simp at hm; subst hm; simp)
        | (rw [h]; simp)

theorem C3_amended_monotonic_severity_witness :
    (∃ x ∈ c3w, x.id = "cpu_sc" ∧ x.level = "critical")
    ∧ ∀ x ∈ c3w, x.id ≠ "cpu_sw" := by
  have hok : evalWarnings DEFAULT_THRESHOLDS c3sample c3state = .ok (c3w, c3state2) := by
    norm_num [evalWarnings, cpuTempW, gpuTempW, voltW, ramW, snOf, cpuSusW, gpuSusW,
      netW, pushCap, sumOpt, pySliceLast, meanQ, gpuPushPair, pyStr, pyFmt0,
      roundHalfEven, List.sum_cons, c3sample, c3state, c3state2, c3w, DEFAULT_THRESHOLDS]
    decide
  exact (C3_amended_monotonic_severity DEFAULT_THRESHOLDS c3sample c3state c3w
      c3state2 hok).2.2.2.1
    (by norm_num [snOf, pushCap, c3state, c3sample, DEFAULT_THRESHOLDS])
    (by norm_num [meanQ, pushCap, List.sum_cons, c3state, c3sample, DEFAULT_THRESHOLDS])

-- ── Claim C4 ─────────────────────────────────────────────────────────────────

/-- A deque append below capacity is a plain append. -/
theorem pushCap_small {xs : List α} {cap : Nat} (x : α) (h : xs.length + 1 ≤ cap) :
    pushCap cap xs x = xs ++ [x] := by
  simp only [pushCap, List.length_append, List.length_cons, List.length_nil]
  rw [if_neg (by omega)]

theorem sumOpt_replicate_zero (n : ℕ) :
    sumOpt (List.replicate n (some (0 : ℚ))) = .ok 0 := by
  induction n with
  | zero => rfl
  | succ m ih =>
    rw [List.replicate_succ]
    simp [sumOpt, ih, Except.map]

/-- With an all-zeros window and a zero download the spike rule never fires
(the `ab > 10` floor guard is false). -/
theorem netW_replicate_zero (t : Thresholds) (hnb : t.network.baseline_samples ≠ 0)
    (m : ℕ) (disp : String) :
    netW t (List.replicate m (some 0)) (some 0) disp = .ok [] := by
  unfold netW
  rcases le_or_lt t.network.baseline_samples (List.replicate m (some (0:ℚ))).length with h | h
  · rw [if_pos h]
    have hs : sumOpt (pySliceLast t.network.baseline_samples
        (List.replicate m (some (0:ℚ)))) = .ok 0 := by
      unfold pySliceLast
      split_ifs
      · exact sumOpt_replicate_zero m
      · rw [List.length_replicate, List.drop_replicate]
        exact sumOpt_replicate_zero _
    rw [hs]
    simp only []
    rw [if_neg hnb, if_neg (by rw [zero_div]; norm_num)]
  · rw [if_neg (not_le.mpr h)]

theorem eval_susSample (t : Thresholds) (hnb : t.network.baseline_samples ≠ 0)
    (u : ℚ) (j : ℕ) (hj : j + 1 ≤ 12) :
    evalWarnings t (susSample u) ⟨List.replicate j u, [], List.replicate j (some 0)⟩
      = .ok (ramW t 0 ++ cpuSusW t (List.replicate (j + 1) u),
             ⟨List.replicate (j + 1) u, [], List.replicate (j + 1) (some 0)⟩) := by
  have hcs : pushCap 12 (List.replicate j u) u = List.replicate (j + 1) u := by
    rw [pushCap_small _ (by rw [List.length_replicate]; omega), ← List.replicate_succ']
  have hnw : pushCap 36 (List.replicate j (some (0:ℚ))) (some (0:ℚ))
      = List.replicate (j + 1) (some 0) := by
    rw [pushCap_small _ (by rw [List.length_replicate]; omega), ← List.replicate_succ']
  unfold evalWarnings
  simp only [susSample]
  rw [hcs, hnw, netW_replicate_zero t hnb (j + 1) ""]
  simp [cpuTempW, gpuTempW, voltW, gpuSusW, gpuPushPair]

theorem runEval_susSample (t : Thresholds) (hnb : t.network.baseline_samples ≠ 0)
    (u : ℚ) :
    ∀ (k j : ℕ), j + k ≤ 12 →
      runEval t ⟨List.replicate j u, [], List.replicate j (some 0)⟩
          (List.replicate k (susSample u))
        = .ok ((List.range k).map
                 (fun i => ramW t 0 ++ cpuSusW t (List.replicate (j + i + 1) u)),
               ⟨List.replicate (j + k) u, [], List.replicate (j + k) (some 0)⟩) := by
  intro k
  induction k with
  | zero =>
    intro j hj
    simp [runEval]
  | succ n ih =>
    intro j hj
    rw [List.replicate_succ]
    simp only [runEval]
    rw [eval_susSample t hnb u j (by omega)]
    simp only []
    rw [ih (j + 1) (by omega)]
    simp only []
    have h1 : j + 1 + n = j + (n + 1) := by omega
    have h2 : (List.range (n + 1)).map
        (fun i => ramW t 0 ++ cpuSusW t (List.replicate (j + i + 1) u))
      = (ramW t 0 ++ cpuSusW t (List.replicate (j + 1) u))
        :: (List.range n).map
             (fun i => ramW t 0 ++ cpuSusW t (List.replicate (j + 1 + i + 1) u)) := by
      rw [List.range_succ_eq_map, List.map_cons, List.map_map]
      refine congrArg₂ List.cons (by norm_num) ?_
      refine List.map_congr_left ?_
      intro i _
      simp only [Function.comp]
      rw [show j + Nat.succ i + 1 = j + 1 + i + 1 by omega]
    rw [h2, h1]

/-- The rational `sn` of the code and the natural `capacity` of the spec
agree. -/
theorem snOf_eq_capOf (t : Thresholds) : snOf t = (capOf t : ℚ) := by
  unfold snOf capOf
  rcases le_or_lt ⌊t.cpu.usage_sustain_sec / 5⌋ 0 with h | h
  · rw [Int.toNat_of_nonpos h]
    rw [max_eq_left (le_trans
      (show ((⌊t.cpu.usage_sustain_sec / 5⌋ : ℤ) : ℚ) ≤ 0 by exact_mod_cast h)
      zero_le_one)]
    norm_num
  · have h0 : (0 : ℤ) ≤ ⌊t.cpu.usage_sustain_sec / 5⌋ := by omega
    rw [max_eq_right
      (show (1 : ℚ) ≤ ((⌊t.cpu.usage_sustain_sec / 5⌋ : ℤ) : ℚ) by exact_mod_cast h)]
    rw [max_eq_right (show 1 ≤ ⌊t.cpu.usage_sustain_sec / 5⌋.toNat by omega)]
    exact_mod_cast (Int.toNat_of_nonneg h0).symm

/-- The mean of a constant window is that constant. -/
theorem meanQ_replicate (u : ℚ) (m : ℕ) (hm : m ≠ 0) :
    meanQ (List.replicate m u) = u := by
  unfold meanQ
  rw [List.sum_replicate, List.length_replicate, nsmul_eq_mul]
  rw [mul_div_cancel_left₀ _ (show ((m : ℕ) : ℚ) ≠ 0 by exact_mod_cast hm)]

/-- C4 counterexample: in scenario C (usage 96 each call, sustain 60 s, poll
5 s, so capacity 12) calls 1-11 emit nothing and call 12 emits the sustained
warning — but its id is `cpu_sc`, so the claimed id `cpu_sustain_crit` never
appears. -/
theorem C4_sustained_id_is_cpu_sc :
    (runEval profile60 emptyState (List.replicate 12 (susSample 96))).map
        (fun p => p.1.map (fun ws => ws.map Warning.id))
      = .ok [[], [], [], [], [], [], [], [], [], [], [], ["cpu_sc"]] := by
  have h := runEval_susSample profile60 (by decide) 96 12 0 (by omega)
  have he : (⟨List.replicate 0 (96:ℚ), [], List.replicate 0 (some 0)⟩ : WinState)
      = emptyState := rfl
  rw [he] at h
  rw [h]
  rw [show List.range 12 = [0, 1, 2, 3, 4, 5, 6, 7, 8, 9, 10, 11] from rfl]
  norm_num [ramW, cpuSusW, snOf, meanQ, List.sum_replicate, Except.map,
    profile60, DEFAULT_THRESHOLDS]

/-- C4 (amended): starting from an empty CPU window with capacity
`max(1, usage_sustain_sec // 5) ≤ 12` (12 is the deque's fixed maxlen) and
`usage_warn ≤ 100`: `capacity - 1` evaluations at 100% usage emit no CPU
sustained warning (ids `cpu_sc`/`cpu_sw`), and the `capacity`-th call emits
one (critical when `usage_crit ≤ 100`). -/
theorem C4_amended_sustained_boundary (t : Thresholds)
    (hnb : t.network.baseline_samples ≠ 0) (hcap : capOf t ≤ 12)
    (hwarn : t.cpu.usage_warn ≤ 100) :
    (∀ k, k < capOf t → ∃ wss stf,
        runEval t emptyState (List.replicate k (susSample 100)) = .ok (wss, stf)
        ∧ ∀ ws ∈ wss, ∀ x ∈ ws, x.id ≠ "cpu_sc" ∧ x.id ≠ "cpu_sw")
    ∧ (∃ wss stf ws,
        runEval t emptyState (List.replicate (capOf t) (susSample 100)) = .ok (wss, stf)
        ∧ wss.length = capOf t ∧ wss.getLast? = some ws
        ∧ ∃ x ∈ ws, (x.id = "cpu_sc" ∧ x.level = "critical")
                  ∨ (x.id = "cpu_sw" ∧ x.level = "warning")) := by
  have hemp : (⟨List.replicate 0 (100:ℚ), [], List.replicate 0 (some 0)⟩ : WinState)
      = emptyState := rfl
  constructor
  · intro k hk
    have h := runEval_susSample t hnb 100 k 0 (by omega)
    rw [hemp] at h
    refine ⟨_, _, h, ?_⟩
    intro ws hws x hx
    simp only [List.mem_map, List.mem_range] at hws
    obtain ⟨i, hi, rfl⟩ := hws
    rcases List.mem_append.mp hx with hxr | hxs
    · refine ⟨?_, ?_⟩ <;> rcases mem_ramW hxr with h1 | h1 <;> rw [h1] <;> simp
    · exfalso
      have hlt : ¬ (snOf t ≤ ((List.replicate (0 + i + 1) (100:ℚ)).length : ℚ)) := by
        rw [snOf_eq_capOf, List.length_replicate]
        intro hle
        exact absurd (by exact_mod_cast hle : capOf t ≤ 0 + i + 1) (by omega)
      rw [show cpuSusW t (List.replicate (0 + i + 1) (100:ℚ)) = [] from by
        simp only [cpuSusW]; rw [if_neg hlt]] at hxs
      exact absurd hxs (List.not_mem_nil x)
  · obtain ⟨c, hc⟩ : ∃ c, capOf t = c + 1 :=
      ⟨capOf t - 1, by unfold capOf; omega⟩
    have h := runEval_susSample t hnb 100 (capOf t) 0 (by omega)
    rw [hemp] at h
    have hlast : ((List.range (capOf t)).map
        (fun i => ramW t 0 ++ cpuSusW t (List.replicate (0 + i + 1) (100:ℚ)))).getLast?
        = some (ramW t 0 ++ cpuSusW t (List.replicate (0 + c + 1) (100:ℚ))) := by
      rw [hc, List.range_succ, List.map_append]
      exact List.getLast?_concat _
    have hfire : snOf t ≤ ((List.replicate (0 + c + 1) (100:ℚ)).length : ℚ) := by
      rw [snOf_eq_capOf, List.length_replicate]
      exact_mod_cast (by omega : capOf t ≤ 0 + c + 1)
    have hmean : meanQ (List.replicate (0 + c + 1) (100:ℚ)) = 100 :=
      meanQ_replicate 100 (0 + c + 1) (by omega)
    refine ⟨_, _, _, h, by simp, hlast, ?_⟩
    by_cases hcrit : t.cpu.usage_crit ≤ 100
    · refine ⟨⟨"cpu_sc", "critical", "CPU",
          "CPU sustained " ++ pyFmt0 (meanQ (List.replicate (0 + c + 1) (100:ℚ))) ++ "%"⟩,
        ?_, Or.inl ⟨rfl, rfl⟩⟩
      refine List.mem_append.mpr (Or.inr ?_)
      simp only [cpuSusW]
      rw [if_pos hfire, hmean, if_pos hcrit]
      simp [hmean]
    · refine ⟨⟨"cpu_sw", "warning", "CPU",
          "CPU sustained " ++ pyFmt0 (meanQ (List.replicate (0 + c + 1) (100:ℚ))) ++ "%"⟩,
        ?_, Or.inr ⟨rfl, rfl⟩⟩
      refine List.mem_append.mpr (Or.inr ?_)
      simp only [cpuSusW]
      rw [if_pos hfire, hmean, if_neg hcrit, if_pos (hmean ▸ hwarn)]
      simp [hmean]

theorem C4_amended_sustained_boundary_witness :
    ∃ wss stf ws,
      runEval profile60 emptyState
          (List.replicate (capOf profile60) (susSample 100)) = .ok (wss, stf)
      ∧ wss.length = capOf profile60 ∧ wss.getLast? = some ws
      ∧ ∃ x ∈ ws, (x.id = "cpu_sc" ∧ x.level = "critical")
                ∨ (x.id = "cpu_sw" ∧ x.level = "warning") :=
  (C4_amended_sustained_boundary profile60 (by decide)
    (by norm_num [capOf, profile60, DEFAULT_THRESHOLDS])
    (by norm_num [profile60, DEFAULT_THRESHOLDS])).2

-- ── Claim C5 ─────────────────────────────────────────────────────────────────

theorem headMatch_self_append : ∀ (v r : List Char), headMatch v (v ++ r) = true := by
  intro v
  induction v with
  | nil => intro r; rfl
  | cons a as ih => intro r; simp [headMatch, ih]

theorem occursIn_append : ∀ (p v r : List Char), occursIn v (p ++ v ++ r) = true := by
  intro p
  induction p with
  | nil =>
    intro v r
    cases v with
    | nil =>
      cases r with
      | nil => rfl
      | cons b bs =>
        rw [show occursIn [] ([] ++ [] ++ b :: bs)
            = (headMatch [] (b :: bs) || occursIn [] bs) from rfl]
        rw [show headMatch [] (b :: bs) = true from rfl, Bool.true_or]
    | cons a as =>
      rw [show occursIn (a :: as) ([] ++ (a :: as) ++ r)
          = (headMatch (a :: as) ((a :: as) ++ r) || occursIn (a :: as) (as ++ r))
          from rfl]
      rw [headMatch_self_append, Bool.true_or]
  | cons b bs ih =>
    intro v r
    rw [show occursIn v ((b :: bs) ++ v ++ r)
        = (headMatch v ((b :: bs) ++ v ++ r) || occursIn v (bs ++ v ++ r)) from rfl]
    rw [ih v r, Bool.or_true]

/-- A string occurs in `p ++ v ++ s`. -/
theorem strOccurs_parts (v p s : String) : strOccurs v (p ++ v ++ s) = true := by
  unfold strOccurs
  rw [String.data_append, String.data_append]
  exact occursIn_append p.data v.data s.data

/-- A string occurs in `p ++ v`. -/
theorem strOccurs_parts2 (v p : String) : strOccurs v (p ++ v) = true := by
  unfold strOccurs
  rw [String.data_append]
  have h := occursIn_append p.data v.data []
  rwa [List.append_nil] at h

/-- C5 counterexample: in scenario A, the single warning's message is
`CPU temp critical: 95°C`, which contains the observed value but not the
threshold (`90`) that fired. -/
theorem C5_message_lacks_threshold :
    (evalWarnings DEFAULT_THRESHOLDS sampleA emptyState).map
        (fun p => p.1.map Warning.message)
      = .ok ["CPU temp critical: 95°C"]
    ∧ strOccurs (pyStr DEFAULT_THRESHOLDS.cpu.temp_crit)
        "CPU temp critical: 95°C" = false := by
  constructor
  · norm_num [evalWarnings, cpuTempW, gpuTempW, voltW, ramW, snOf, cpuSusW, gpuSusW,
      netW, pushCap, sumOpt, pySliceLast, meanQ, gpuPushPair, Except.map, pyStr,
      sampleA, DEFAULT_THRESHOLDS, emptyState]
    decide
  · have h90 : pyStr DEFAULT_THRESHOLDS.cpu.temp_crit = toString (90 : ℤ) := by
      norm_num [pyStr, DEFAULT_THRESHOLDS]
    rw [h90]
    decide

/-- C5 (amended): every warning's message embeds the observed value that the
rule read — the raw reading for the temperature/voltage/RAM rules, the
zero-decimal-formatted window mean for the sustained rules, and the
preformatted download display string for the network rule. The firing
threshold is not part of any message (see the counterexample). -/
theorem C5_amended_message_has_value (t : Thresholds) (s : Sample)
    (st : WinState) (w : List Warning) (st2 : WinState)
    (hok : evalWarnings t s st = .ok (w, st2)) :
    ∀ x ∈ w,
      ((x.id = "cpu_temp_crit" ∨ x.id = "cpu_temp_warn") →
        ∃ c, s.cpu_temp = some c ∧ strOccurs (pyStr c) x.message = true)
      ∧ ((x.id = "gpu_temp_crit" ∨ x.id = "gpu_temp_warn") →
        ∃ g, s.gpu_temp = some g ∧ strOccurs (pyStr g) x.message = true)
      ∧ ((x.id = "cpu_volt_high" ∨ x.id = "cpu_volt_low") →
        ∃ v, s.cpu_voltage = some v ∧ strOccurs (pyStr v) x.message = true)
      ∧ ((x.id = "ram_crit" ∨ x.id = "ram_warn") →
        ∃ rp, s.ram_usage_percent = some rp ∧ strOccurs (pyStr rp) x.message = true)
      ∧ ((x.id = "cpu_sc" ∨ x.id = "cpu_sw") →
        strOccurs (pyFmt0 (meanQ (pushCap 12 st.cpuWin s.cpu_usage)))
          x.message = true)
      ∧ ((x.id = "gpu_sc" ∨ x.id = "gpu_sw") →
        ∃ g, s.gpu_usage = some g
          ∧ strOccurs (pyFmt0 (meanQ (pushCap 12 st.gpuWin g))) x.message = true)
      ∧ (x.id = "net_spike" → strOccurs s.download_display x.message = true) := by
  obtain ⟨rp, w4, hrp, hnet, hw, hst⟩ := evalWarnings_ok_iff.mp hok
  subst hw
  intro x hx
  rcases hx' : x with ⟨xi, xl, xc, xm⟩
  rw [← hx']
  rcases List.mem_append.mp hx with hx6 | h
  swap
  · rcases netW_ok_cases hnet with h4 | h4 <;> subst h4
    · exact absurd h (List.not_mem_nil x)
    · simp at h
      subst h
      refine ⟨?_, ?_, ?_, ?_, ?_, ?_, fun _ => strOccurs_parts2 _ _⟩ <;>
        (intro hcontra; simp at hcontra)
  rcases List.mem_append.mp hx6 with hx5 | h
  swap
  · rcases hgu : s.gpu_usage with _ | g
    · rw [show (gpuPushPair st s.gpu_usage).2 = none from by rw [hgu]; rfl] at h
      simp [gpuSusW] at h
    · rw [show (gpuPushPair st s.gpu_usage).2 = some (pushCap 12 st.gpuWin g) from by
        rw [hgu]; rfl] at h
      simp only [gpuSusW] at h
      split_ifs at h <;> simp at h <;> subst h <;>
        refine ⟨?_, ?_, ?_, ?_, ?_,
          fun _ => ⟨g, rfl, strOccurs_parts _ _ _⟩, ?_⟩ <;>
        (intro hcontra; simp at hcontra)
  rcases List.mem_append.mp hx5 with hx4 | h
  swap
  · simp only [cpuSusW] at h
    split_ifs at h <;> simp at h <;> subst h <;>
      refine ⟨?_, ?_, ?_, ?_, fun _ => strOccurs_parts _ _ _, ?_, ?_⟩ <;>
      (intro hcontra; simp at hcontra)
  rcases List.mem_append.mp hx4 with hx3 | h
  swap
  · simp only [ramW] at h
    split_ifs at h <;> simp at h <;> subst h <;>
      refine ⟨?_, ?_, ?_, fun _ => ⟨rp, hrp, strOccurs_parts _ _ _⟩, ?_, ?_, ?_⟩ <;>
      (intro hcontra; simp at hcontra)
  rcases List.mem_append.mp hx3 with hx2 | h
  swap
  · rcases hcv : s.cpu_voltage with _ | v
    · rw [hcv] at h
      simp [voltW] at h
    · rw [hcv] at h
      simp only [voltW] at h
      split_ifs at h <;> simp at h <;> subst h <;>
        refine ⟨?_, ?_, fun _ => ⟨v, rfl, strOccurs_parts _ _ _⟩, ?_, ?_, ?_, ?_⟩ <;>
        (intro hcontra; simp at hcontra)
  rcases List.mem_append.mp hx2 with h | h
  · rcases hct : s.cpu_temp with _ | c
    · rw [hct] at h
      simp [cpuTempW] at h
    · rw [hct] at h
      simp only [cpuTempW] at h
      split_ifs at h <;> simp at h <;> subst h <;>
        refine ⟨fun _ => ⟨c, rfl, strOccurs_parts _ _ _⟩, ?_, ?_, ?_, ?_, ?_, ?_⟩ <;>
        (intro hcontra; simp at hcontra)
  · rcases hgt : s.gpu_temp with _ | g
    · rw [hgt] at h
      simp [gpuTempW] at h
    · rw [hgt] at h
      simp only [gpuTempW] at h
      split_ifs at h <;> simp at h <;> subst h <;>
        refine ⟨?_, fun _ => ⟨g, rfl, strOccurs_parts _ _ _⟩, ?_, ?_, ?_, ?_, ?_⟩ <;>
        (intro hcontra; simp at hcontra)

theorem C5_amended_message_has_value_witness :
    ∃ w st2, evalWarnings DEFAULT_THRESHOLDS sampleA emptyState = .ok (w, st2)
      ∧ ∃ x ∈ w, ∃ c, sampleA.cpu_temp = some c
          ∧ strOccurs (pyStr c) x.message = true := by
  have hok : evalWarnings DEFAULT_THRESHOLDS sampleA emptyState
      = .ok ([⟨"cpu_temp_crit", "critical", "CPU", "CPU temp critical: 95°C"⟩],
             ⟨[10], [5], [some 50]⟩) := by
    norm_num [evalWarnings, cpuTempW, gpuTempW, voltW, ramW, snOf, cpuSusW, gpuSusW,
      netW, pushCap, sumOpt, pySliceLast, meanQ, gpuPushPair, pyStr,
      sampleA, DEFAULT_THRESHOLDS, emptyState]
    decide
  refine ⟨_, _, hok, ⟨"cpu_temp_crit", "critical", "CPU", "CPU temp critical: 95°C"⟩,
    by simp, ?_⟩
  have h := C5_amended_message_has_value DEFAULT_THRESHOLDS sampleA emptyState _ _ hok
    ⟨"cpu_temp_crit", "critical", "CPU", "CPU temp critical: 95°C"⟩ (by simp)
  exact h.1 (Or.inl rfl)

-- ── Claim C6 ─────────────────────────────────────────────────────────────────

/-- C6 counterexample: with `gpu.usage_sustain_sec = 60` (12 samples) but
`cpu.usage_sustain_sec = 5`, the GPU sustained warning fires on the very
first GPU sample — the GPU check does not use the GPU component's own
configuration. -/
theorem C6_gpu_check_fires_after_one_sample :
    profC6.cpu.usage_sustain_sec ≠ profC6.gpu.usage_sustain_sec
    ∧ (profC6.gpu.usage_sustain_sec / 5 : ℚ) = 12
    ∧ (evalWarnings profC6 sampleC6 emptyState).map (fun p => p.1.map Warning.id)
        = .ok ["gpu_sc"] := by
  refine ⟨by norm_num [profC6, DEFAULT_THRESHOLDS],
          by norm_num [profC6, DEFAULT_THRESHOLDS], ?_⟩
  norm_num [evalWarnings, cpuTempW, gpuTempW, voltW, ramW, snOf, cpuSusW, gpuSusW,
    netW, pushCap, sumOpt, pySliceLast, meanQ, gpuPushPair, Except.map,
    sampleC6, profC6, DEFAULT_THRESHOLDS, emptyState]

/-- C6 (amended): the evaluator never reads `gpu.usage_sustain_sec` (changing
it changes nothing), and the GPU sustained rule fires exactly when the GPU
window — after the push — reaches `sn = max(1, cpu.usage_sustain_sec // 5)`
entries (the CPU component's count) with mean at or above a GPU usage
threshold. -/
theorem C6_amended_gpu_sustain_uses_cpu_count :
    (∀ (t : Thresholds) (q : ℚ) (s : Sample) (st : WinState),
        evalWarnings (setGpuSus t q) s st = evalWarnings t s st)
    ∧ (∀ (t : Thresholds) (s : Sample) (st : WinState) (w : List Warning)
        (st2 : WinState) (g : ℚ),
        evalWarnings t s st = .ok (w, st2) → s.gpu_usage = some g →
        ((∃ x ∈ w, x.id = "gpu_sc" ∨ x.id = "gpu_sw") ↔
          (pushCap 12 st.gpuWin g ≠ []
           ∧ snOf t ≤ ((pushCap 12 st.gpuWin g).length : ℚ)
           ∧ (t.gpu.usage_crit ≤ meanQ (pushCap 12 st.gpuWin g)
              ∨ t.gpu.usage_warn ≤ meanQ (pushCap 12 st.gpuWin g))))) := by
  constructor
  · intro t q s st
    rfl
  · intro t s st w st2 g hok hgu
    have hpair : (gpuPushPair st s.gpu_usage).2 = some (pushCap 12 st.gpuWin g) := by
      rw [hgu]
      rfl
    obtain ⟨rp, w4, hrp, hnet, hw, hst⟩ := evalWarnings_ok_iff.mp hok
    constructor
    · rintro ⟨x, hx, hid⟩
      rcases eval_mem_id_cases hok hx with
        ⟨_, h | h⟩ | ⟨_, h | h⟩ | ⟨_, h | h⟩ | ⟨_, h | h⟩ | ⟨_, h | h⟩ | ⟨hm, _⟩ |
          ⟨h, _⟩ <;>
        first
        | (rw [h] at hid; simp at hid)
        | skip
      rw [hpair] at hm
      simp only [gpuSusW] at hm
      split_ifs at hm with h1 h2 h3 h4 <;> simp at hm
      · exact ⟨fun he => h1 (List.isEmpty_iff.mpr he), h2, Or.inl h3⟩
      · exact ⟨fun he => h1 (List.isEmpty_iff.mpr he), h2, Or.inr h4⟩
    · rintro ⟨hne, hlen, hcw⟩
      have hne2 : ¬((pushCap 12 st.gpuWin g).isEmpty = true) := by
        intro he
        exact hne (List.isEmpty_iff.mp he)
      by_cases hcrit : t.gpu.usage_crit ≤ meanQ (pushCap 12 st.gpuWin g)
      · have hseg : gpuSusW t (gpuPushPair st s.gpu_usage).2
            = [⟨"gpu_sc", "critical", "GPU", "GPU sustained "
                ++ pyFmt0 (meanQ (pushCap 12 st.gpuWin g)) ++ "%"⟩] := by
          rw [hpair]
          simp only [gpuSusW]
          rw [if_neg hne2, if_pos hlen, if_pos hcrit]
        refine ⟨⟨"gpu_sc", "critical", "GPU", "GPU sustained "
            ++ pyFmt0 (meanQ (pushCap 12 st.gpuWin g)) ++ "%"⟩, ?_, Or.inl rfl⟩
        rw [hw, hseg]
        simp
      · have hwarn : t.gpu.usage_warn ≤ meanQ (pushCap 12 st.gpuWin g) := by
          rcases hcw with h | h
          · exact absurd h hcrit
          · exact h
        have hseg : gpuSusW t (gpuPushPair st s.gpu_usage).2
            = [⟨"gpu_sw", "warning", "GPU", "GPU sustained "
                ++ pyFmt0 (meanQ (pushCap 12 st.gpuWin g)) ++ "%"⟩] := by
          rw [hpair]
          simp only [gpuSusW]
          rw [if_neg hne2, if_pos hlen, if_neg hcrit, if_pos hwarn]
        refine ⟨⟨"gpu_sw", "warning", "GPU", "GPU sustained "
            ++ pyFmt0 (meanQ (pushCap 12 st.gpuWin g)) ++ "%"⟩, ?_, Or.inr rfl⟩
        rw [hw, hseg]
        simp

theorem C6_amended_gpu_sustain_uses_cpu_count_witness :
    ∃ x ∈ c6w, x.id = "gpu_sc" ∨ x.id = "gpu_sw" := by
  have hok : evalWarnings profC6 sampleC6 emptyState
      = .ok (c6w, ⟨[0], [100], [some 0]⟩) := by
    norm_num [evalWarnings, cpuTempW, gpuTempW, voltW, ramW, snOf, cpuSusW, gpuSusW,
      netW, pushCap, sumOpt, pySliceLast, meanQ, gpuPushPair, pyFmt0, roundHalfEven,
      c6w, sampleC6, profC6, DEFAULT_THRESHOLDS, emptyState]
    decide
  exact (C6_amended_gpu_sustain_uses_cpu_count.2 profC6 sampleC6 emptyState c6w
      ⟨[0], [100], [some 0]⟩ 100 hok rfl).mpr
    ⟨by decide,
     by norm_num [snOf, pushCap, profC6, DEFAULT_THRESHOLDS, emptyState],
     Or.inl (by norm_num [meanQ, pushCap, profC6, DEFAULT_THRESHOLDS, emptyState,
       List.sum_cons])⟩

-- ── Claim C7 ─────────────────────────────────────────────────────────────────

/-- A capped push never exceeds the capacity. -/
theorem pushCap_length_le (cap : Nat) (xs : List α) (x : α) :
    (pushCap cap xs x).length ≤ cap := by
  simp only [pushCap]
  split_ifs with h
  · rw [List.length_drop]
    omega
  · simp only [List.length_append, List.length_cons, List.length_nil] at h ⊢
    omega

/-- Exactly when the network rule emits its spike warning: the window (after
the push) holds at least `baseline_samples` entries, the mean over precisely
the last `baseline_samples` entries exceeds the floor 10, and the current
download exceeds `mean * spike_multiplier`. -/
theorem netW_spike_iff {t : Thresholds} {nw : List (Option ℚ)} {dn : Option ℚ}
    {disp : String} {w4 : List Warning} (hok : netW t nw dn disp = .ok w4) :
    (∃ x ∈ w4, x.id = "net_spike") ↔
      (t.network.baseline_samples ≤ nw.length
       ∧ ∃ sm d, sumOpt (pySliceLast t.network.baseline_samples nw) = .ok sm
         ∧ t.network.baseline_samples ≠ 0
         ∧ 10 < sm / (t.network.baseline_samples : ℚ)
         ∧ dn = some d
         ∧ sm / (t.network.baseline_samples : ℚ) * t.network.spike_multiplier < d) := by
  unfold netW at hok
  by_cases h1 : t.network.baseline_samples ≤ nw.length
  · rw [if_pos h1] at hok
    rcases hs : sumOpt (pySliceLast t.network.baseline_samples nw) with e | sm
    · rw [hs] at hok
      exact absurd hok (by simp)
    · rw [hs] at hok
      simp only [] at hok
      by_cases h2 : t.network.baseline_samples = 0
      · rw [if_pos h2] at hok
        exact absurd hok (by simp)
      · rw [if_neg h2] at hok
        by_cases h3 : 10 < sm / (t.network.baseline_samples : ℚ)
        · rw [if_pos h3] at hok
          rcases dn with _ | d
          · exact absurd hok (by simp)
          · simp only [] at hok
            by_cases h4 : sm / (t.network.baseline_samples : ℚ)
                * t.network.spike_multiplier < d
            · rw [if_pos h4] at hok
              rcases (Except.ok.injEq _ _).mp hok with rfl
              constructor
              · intro _
                exact ⟨h1, sm, d, rfl, h2, h3, rfl, h4⟩
              · intro _
                exact ⟨⟨"net_spike", "warning", "Network",
                  "Network spike: " ++ disp⟩, by simp, rfl⟩
            · rw [if_neg h4] at hok
              rcases (Except.ok.injEq _ _).mp hok with rfl
              constructor
              · rintro ⟨x, hx, _⟩
                exact absurd hx (List.not_mem_nil x)
              · rintro ⟨_, sm2, d2, hs2, _, _, hd2, h42⟩
                rcases (Except.ok.injEq _ _).mp hs2 with rfl
                rcases (Option.some.injEq _ _).mp hd2 with rfl
                exact absurd h42 h4
        · rw [if_neg h3] at hok
          rcases (Except.ok.injEq _ _).mp hok with rfl
          constructor
          · rintro ⟨x, hx, _⟩
            exact absurd hx (List.not_mem_nil x)
          · rintro ⟨_, sm2, d2, hs2, _, h32, _, _⟩
            rcases (Except.ok.injEq _ _).mp hs2 with rfl
            exact absurd h32 h3
  · rw [if_neg h1] at hok
    rcases (Except.ok.injEq _ _).mp hok with rfl
    constructor
    · rintro ⟨x, hx, _⟩
      exact absurd hx (List.not_mem_nil x)
    · rintro ⟨h12, _⟩
      exact absurd h12 h1

/-- C7 counterexample: with `baseline_samples = 1` the window would have to
hold at most 3 entries by the claim, yet after four calls it holds four —
its capacity is the fixed deque maxlen 36, not `3 × baseline_samples`. -/
theorem C7_window_exceeds_three_times_baseline :
    runEval profC7 emptyState (List.replicate 4 sampleC7)
      = .ok ([[], [], [], []],
             ⟨[0, 0, 0, 0], [], [some 100, some 100, some 100, some 100]⟩)
    ∧ 3 * profC7.network.baseline_samples
        < 4 := by
  constructor
  · rw [show List.replicate 4 sampleC7 = [sampleC7, sampleC7, sampleC7, sampleC7]
      from rfl]
    norm_num [runEval, evalWarnings, cpuTempW, gpuTempW, voltW, ramW, snOf,
      cpuSusW, gpuSusW, netW, pushCap, sumOpt, pySliceLast, meanQ, gpuPushPair,
      Except.map, sampleC7, profC7, DEFAULT_THRESHOLDS, emptyState]
  · norm_num [profC7, DEFAULT_THRESHOLDS]

/-- C7 (amended): the network window is the deque-36 push of the previous
window (so its length never exceeds the fixed 36 — which is `3 ×` the
*default* `baseline_samples` of 12, not of the configured value), and the
spike warning fires exactly on the mean of the last `baseline_samples`
entries as characterised by `netW_spike_iff`. -/
theorem C7_amended_fixed_capacity_window (t : Thresholds) (s : Sample)
    (st : WinState) (w : List Warning) (st2 : WinState)
    (hok : evalWarnings t s st = .ok (w, st2)) :
    st2.netWin = pushCap 36 st.netWin s.net_download_kbps
    ∧ st2.netWin.length ≤ 36
    ∧ ((∃ x ∈ w, x.id = "net_spike") ↔
        (t.network.baseline_samples ≤ (pushCap 36 st.netWin s.net_download_kbps).length
         ∧ ∃ sm d, sumOpt (pySliceLast t.network.baseline_samples
               (pushCap 36 st.netWin s.net_download_kbps)) = .ok sm
           ∧ t.network.baseline_samples ≠ 0
           ∧ 10 < sm / (t.network.baseline_samples : ℚ)
           ∧ s.net_download_kbps = some d
           ∧ sm / (t.network.baseline_samples : ℚ)
               * t.network.spike_multiplier < d)) := by
  obtain ⟨rp, w4, hrp, hnet, hw, hst⟩ := evalWarnings_ok_iff.mp hok
  refine ⟨by rw [hst], by rw [hst]; exact pushCap_length_le _ _ _, ?_⟩
  rw [← netW_spike_iff hnet]
  constructor
  · rintro ⟨x, hx, hid⟩
    rw [hw] at hx
    rcases List.mem_append.mp hx with hx6 | h
    · exfalso
      rcases List.mem_append.mp hx6 with hx5 | h
      swap
      · rcases mem_gpuSusW h with h2 | h2 <;> rw [h2] at hid <;> simp at hid
      rcases List.mem_append.mp hx5 with hx4 | h
      swap
      · rcases mem_cpuSusW h with h2 | h2 <;> rw [h2] at hid <;> simp at hid
      rcases List.mem_append.mp hx4 with hx3 | h
      swap
      · rcases mem_ramW h with h2 | h2 <;> rw [h2] at hid <;> simp at hid
      rcases List.mem_append.mp hx3 with hx2 | h
      swap
      · rcases mem_voltW h with h2 | h2 <;> rw [h2] at hid <;> simp at hid
      rcases List.mem_append.mp hx2 with h | h
      · rcases mem_cpuTempW h with h2 | h2 <;> rw [h2] at hid <;> simp at hid
      · rcases mem_gpuTempW h with h2 | h2 <;> rw [h2] at hid <;> simp at hid
    · exact ⟨x, h, hid⟩
  · rintro ⟨x, hx, hid⟩
    refine ⟨x, ?_, hid⟩
    rw [hw]
    exact List.mem_append.mpr (Or.inr hx)

theorem C7_amended_fixed_capacity_window_witness :
    (⟨[10], [], [some 50]⟩ : WinState).netWin
        = pushCap 36 emptyState.netWin sampleNulls.net_download_kbps
    ∧ (⟨[10], [], [some 50]⟩ : WinState).netWin.length ≤ 36 := by
  have hok : evalWarnings DEFAULT_THRESHOLDS sampleNulls emptyState
      = .ok ([], ⟨[10], [], [some 50]⟩) := by
    norm_num [evalWarnings, cpuTempW, gpuTempW, voltW, ramW, snOf, cpuSusW, gpuSusW,
      netW, pushCap, sumOpt, pySliceLast, meanQ, gpuPushPair,
      sampleNulls, DEFAULT_THRESHOLDS, emptyState]
  have h := C7_amended_fixed_capacity_window DEFAULT_THRESHOLDS sampleNulls
    emptyState [] ⟨[10], [], [some 50]⟩ hok
  exact ⟨h.1, h.2.1⟩

-- ── Claim C8 ─────────────────────────────────────────────────────────────────

theorem dlookup_append (m1 m2 : List (String × α)) (k : String) :
    dlookup (m1 ++ m2) k = oOr (dlookup m1 k) (dlookup m2 k) := by
  induction m1 with
  | nil => rfl
  | cons p rest ih =>
    rcases p with ⟨k1, v1⟩
    by_cases h : k1 = k
    · simp [dlookup, h, oOr]
    · simp [dlookup, h, ih]

theorem oOr_none (a : Option α) : oOr a none = a := by
  cases a <;> rfl

theorem dlookup_dset_self {m : List (String × α)} {k : String} {sv : α}
    (h : dlookup m k = some sv) (v : α) :
    dlookup (dset m k v) k = some v := by
  induction m with
  | nil => simp [dlookup] at h
  | cons p rest ih =>
    rcases p with ⟨k1, v1⟩
    simp only [dset, List.map_cons]
    by_cases hk : k1 = k
    · subst hk
      rw [show (if (k1, v1).1 = k1 then (k1, v) else (k1, v1)) = (k1, v) from by
        rw [if_pos rfl]]
      simp [dlookup]
    · rw [show (if (k1, v1).1 = k then (k, v) else (k1, v1)) = (k1, v1) from by
        rw [if_neg hk]]
      simp only [dlookup, if_neg hk] at h ⊢
      exact ih h

theorem dlookup_dset_ne (m : List (String × α)) {k k2 : String} (v : α)
    (h : k2 ≠ k) : dlookup (dset m k v) k2 = dlookup m k2 := by
  induction m with
  | nil => rfl
  | cons p rest ih =>
    rcases p with ⟨k1, v1⟩
    simp only [dset, List.map_cons]
    by_cases hk : k1 = k
    · subst hk
      rw [show (if (k1, v1).1 = k1 then (k1, v) else (k1, v1)) = (k1, v) from by
        rw [if_pos rfl]]
      simp only [dlookup]
      rw [if_neg (fun hh => h hh.symm), if_neg (fun hh => h hh.symm)]
      exact ih
    · rw [show (if (k1, v1).1 = k then (k, v) else (k1, v1)) = (k1, v1) from by
        rw [if_neg hk]]
      simp only [dlookup]
      by_cases h12 : k1 = k2
      · rw [if_pos h12, if_pos h12]
      · rw [if_neg h12, if_neg h12]
        exact ih

theorem dlookup_not_mem {m : List (String × α)} {k : String}
    (h : k ∉ m.map Prod.fst) : dlookup m k = none := by
  induction m with
  | nil => rfl
  | cons p rest ih =>
    rcases p with ⟨k1, v1⟩
    simp only [List.map_cons, List.mem_cons] at h
    push_neg at h
    simp only [dlookup]
    rw [if_neg (fun hh => h.1 hh.symm)]
    exact ih h.2

/-- The per-section merge: the saved value wins, missing keys come from the
defaults. -/
theorem mergeSection_lookup (dv : List (String × α)) :
    ∀ (sv : List (String × α)) (k : String),
      dlookup (mergeSection sv dv) k = oOr (dlookup sv k) (dlookup dv k) := by
  induction dv with
  | nil =>
    intro sv k
    rcases h : dlookup sv k with _ | v <;> simp [mergeSection, dlookup, h, oOr]
  | cons p rest ih =>
    intro sv k
    rcases p with ⟨k1, v1⟩
    have hstep : mergeSection sv ((k1, v1) :: rest)
        = mergeSection (if (dlookup sv k1).isSome then sv else sv ++ [(k1, v1)]) rest := by
      simp only [mergeSection, List.foldl_cons]
    rw [hstep, ih]
    by_cases hp : (dlookup sv k1).isSome
    · rw [if_pos hp]
      by_cases hk : k1 = k
      · subst hk
        rcases hsv : dlookup sv k1 with _ | w
        · rw [hsv] at hp
          simp at hp
        · simp [dlookup, oOr, hsv]
      · simp [dlookup, if_neg hk]
    · rw [if_neg hp]
      rw [dlookup_append]
      by_cases hk : k1 = k
      · subst hk
        have hsv : dlookup sv k1 = none := by
          rcases hsv : dlookup sv k1 with _ | w
          · rfl
          · rw [hsv] at hp
            simp at hp
        simp [dlookup, oOr, hsv]
      · simp [dlookup, if_neg hk, oOr]
        rcases dlookup sv k with _ | w <;> simp [oOr]

/-- C8: the `load_thresholds` union-merge, looked up at any section/key, gives
the persisted (user) value when present and the detected default otherwise —
persisted values are never overwritten, missing sections and keys are
backfilled. -/
theorem C8_load_merge_backfills (saved defaults : List (String × List (String × α)))
    (hnd : (defaults.map Prod.fst).Nodup) (sec key : String) :
    dlookup2 (mergeProfile saved defaults) sec key
      = oOr (dlookup2 saved sec key) (dlookup2 defaults sec key) := by
  induction defaults generalizing saved with
  | nil =>
    rcases h : dlookup2 saved sec key with _ | v <;>
      simp [mergeProfile, dlookup2, dlookup, h, oOr] <;>
      simp [dlookup2, dlookup] at h <;> simp [h]
  | cons p rest ih =>
    rcases p with ⟨s0, d0⟩
    rw [List.map_cons, List.nodup_cons] at hnd
    have hstep : mergeProfile saved ((s0, d0) :: rest)
        = mergeProfile
            (match dlookup saved s0 with
             | none => saved ++ [(s0, d0)]
             | some sv => dset saved s0 (mergeSection sv d0)) rest := by
      simp only [mergeProfile, List.foldl_cons]
    rw [hstep, ih _ hnd.2]
    by_cases hsec : s0 = sec
    · subst hsec
      have hrest : dlookup2 rest s0 key = none := by
        unfold dlookup2
        rw [dlookup_not_mem hnd.1]
      have hcons : dlookup2 ((s0, d0) :: rest) s0 key = dlookup d0 key := by
        unfold dlookup2
        rw [dlookup, if_pos rfl]
      rw [hrest, hcons, oOr_none]
      rcases hs : dlookup saved s0 with _ | sv
      · simp only []
        have hL : dlookup2 (saved ++ [(s0, d0)]) s0 key = dlookup d0 key := by
          unfold dlookup2
          rw [dlookup_append, hs]
          rw [show oOr none (dlookup [(s0, d0)] s0) = dlookup [(s0, d0)] s0 from rfl]
          rw [dlookup, if_pos rfl]
        have hsaved : dlookup2 saved s0 key = none := by
          unfold dlookup2
          rw [hs]
        rw [hL, hsaved]
        rcases dlookup d0 key with _ | w <;> rfl
      · simp only []
        have hL : dlookup2 (dset saved s0 (mergeSection sv d0)) s0 key
            = oOr (dlookup sv key) (dlookup d0 key) := by
          unfold dlookup2
          rw [dlookup_dset_self hs]
          show dlookup (mergeSection sv d0) key = oOr (dlookup sv key) (dlookup d0 key)
          rw [mergeSection_lookup]
        have hsaved : dlookup2 saved s0 key = dlookup sv key := by
          unfold dlookup2
          rw [hs]
        rw [hL, hsaved]
    · have hcons : dlookup2 ((s0, d0) :: rest) sec key = dlookup2 rest sec key := by
        unfold dlookup2
        rw [dlookup, if_neg hsec]
      rw [hcons]
      have hsame : dlookup2
          (match dlookup saved s0 with
           | none => saved ++ [(s0, d0)]
           | some sv => dset saved s0 (mergeSection sv d0)) sec key
          = dlookup2 saved sec key := by
        rcases hs : dlookup saved s0 with _ | sv
        · simp only []
          unfold dlookup2
          rw [dlookup_append, dlookup, if_neg hsec, dlookup]
          rcases dlookup saved sec with _ | w <;> simp [oOr]
        · simp only []
          unfold dlookup2
          rw [dlookup_dset_ne _ _ (fun hh => hsec hh.symm)]
      rw [hsame]

theorem C8_load_merge_backfills_witness :
    dlookup2 (mergeProfile savedProfile defaultsAList) "cpu" "temp_warn" = some 70
    ∧ dlookup2 (mergeProfile savedProfile defaultsAList) "cpu" "usage_crit" = some 95
    ∧ dlookup2 (mergeProfile savedProfile defaultsAList) "ram" "usage_crit" = some 92 := by
  refine ⟨?_, ?_, ?_⟩ <;>
    rw [C8_load_merge_backfills savedProfile defaultsAList (by decide) _ _] <;>
    decide

-- ── Claim C9 ─────────────────────────────────────────────────────────────────

/-- C9 counterexample: the unknown-section request is not rejected — it passes
`_validate`, the handler answers `saved` (HTTP 200), and the unknown section
is silently dropped (the profile is unchanged, so no validation error and no
rejection occurred). -/
theorem C9_unknown_section_not_rejected :
    api_thresholds_post bodyUnknown threshJ = (.saved, threshJ) := by
  norm_num [api_thresholds_post, jfalsy, pyValidate, pyValidateItems, mergeBody,
    dictUpdate, ALLOWED, dlookup, bodyUnknown, threshJ, pyStr,
    show ("hacker" : String).length = 6 from rfl,
    show ("x" : String).length = 1 from rfl]
  simp only [show ("hacker" = "cpu" ∨ "hacker" = "gpu" ∨ "hacker" = "ram"
      ∨ "hacker" = "voltage" ∨ "hacker" = "network") = False from by decide,
    if_false]

/-- C9 (amended): an unknown top-level section does not make `_validate`
reject the request — the merge silently skips every section outside
{cpu, gpu, ram, voltage, network} (the merge applied equals the merge of
only the allowed sections) — while an actual `_validate` failure answers
with the validation error and leaves the in-memory profile unmodified
(no partial merge on validation failure). -/
theorem C9_amended_unknown_sections_ignored :
    (∀ (body : JVal) (th : List (String × List (String × JVal))) (e : String),
        pyValidate 0 body = some e → jfalsy body = false →
        api_thresholds_post body th = (.invalid e, th))
    ∧ (∀ (th : List (String × List (String × JVal)))
        (items : List (String × JVal)),
        mergeBody th items
          = mergeBody th (items.filter (fun kv => decide (kv.1 ∈ ALLOWED)))) := by
  constructor
  · intro body th e hv hf
    unfold api_thresholds_post
    rw [if_neg (by rw [hf]; simp)]
    rw [hv]
  · intro th items
    induction items generalizing th with
    | nil => rfl
    | cons kv rest ih =>
      rcases kv with ⟨k, v⟩
      by_cases hk : k ∈ ALLOWED
      · rw [show ((k, v) :: rest).filter (fun kv => decide (kv.1 ∈ ALLOWED))
            = (k, v) :: rest.filter (fun kv => decide (kv.1 ∈ ALLOWED)) from by
          simp [List.filter, hk]]
        cases v with
        | jobj fields =>
          simp only [mergeBody, if_pos hk]
          rcases hl : dlookup th k with _ | sec
          · rfl
          · exact ih _
        | jnull => simp only [mergeBody, if_pos hk]; exact ih th
        | jbool b => simp only [mergeBody, if_pos hk]; exact ih th
        | jnum q => simp only [mergeBody, if_pos hk]; exact ih th
        | jstr s => simp only [mergeBody, if_pos hk]; exact ih th
        | jarr l => simp only [mergeBody, if_pos hk]; exact ih th
      · rw [show ((k, v) :: rest).filter (fun kv => decide (kv.1 ∈ ALLOWED))
            = rest.filter (fun kv => decide (kv.1 ∈ ALLOWED)) from by
          simp [List.filter, hk]]
        simp only [mergeBody, if_neg hk]
        exact ih th

theorem C9_amended_unknown_sections_ignored_witness :
    api_thresholds_post bodyBad threshJ
      = (.invalid ("out of range: " ++ pyStr 20000), threshJ) := by
  have hv : pyValidate 0 bodyBad = some ("out of range: " ++ pyStr 20000) := by
    norm_num [pyValidate, pyValidateItems, bodyBad,
      show ("cpu" : String).length = 3 from rfl,
      show ("temp_warn" : String).length = 9 from rfl]
  exact C9_amended_unknown_sections_ignored.1 bodyBad threshJ _ hv rfl

/-- The in-place merge really is partial on a mid-loop `KeyError`: with the
`gpu` section missing from the profile, the request merges `cpu` first, then
raises — answered 500 with the `cpu` update already applied to `_thresh`. -/
theorem api_thresholds_post_partial_merge_on_keyerror :
    api_thresholds_post bodyCpuGpu threshNoGpu
      = (.exn "KeyError",
         [("cpu", [("temp_warn", .jnum 70)]), ("ram", []), ("network", []),
          ("voltage", [])]) := by
  norm_num [api_thresholds_post, jfalsy, pyValidate, pyValidateItems, mergeBody,
    dictUpdate, ALLOWED, dlookup, dset, bodyCpuGpu, threshNoGpu, pyStr,
    show ("cpu" : String).length = 3 from rfl,
    show ("gpu" : String).length = 3 from rfl,
    show ("temp_warn" : String).length = 9 from rfl,
    show ("cpu" = "gpu") = False from by decide,
    show ("ram" = "gpu") = False from by decide,
    show ("network" = "gpu") = False from by decide,
    show ("voltage" = "gpu") = False from by decide,
    show ("ram" = "cpu") = False from by decide,
    show ("network" = "cpu") = False from by decide,
    show ("voltage" = "cpu") = False from by decide]
